import Mathlib

/-!
Verification of the ATS form-automation engine (Acme / Globex handlers,
platform registry, field-filler primitives).

The TypeScript source is shallowly embedded as follows:

* A browser `Page` is split into a read-only `PageEnv` (how the page answers
  waits, attribute reads and element-state queries) and a mutable `World`
  (clock, pseudo-random stream index, trace of issued UI actions, and the
  wizard's currently active step).
* Every handler operation becomes a function in the monad
  `M α := World → Res α`, where `Res` is "ok with final world" or
  "thrown error message with the world at throw time" — the exact shape of
  an async TypeScript function that may throw.
* Every DOM interaction (click, type, wait-for-selector, ...) appends an
  event to the trace, so "never interacts with X" claims are statements
  about traces.
* Pure matching algorithms (typeahead scan, fuzzy option matching,
  registry detection) are extracted as pure functions exactly mirroring
  the source loops.
-/

/-! ## JavaScript string semantics helpers -/

/-- JS `String.prototype.includes`: `needle` occurs as a contiguous
substring of `hay`.  Scans every suffix, mirroring the semantics (not the
implementation) of `hay.includes(needle)`. -/
def containsSub (needle : List Char) : List Char → Bool
  | [] => needle.isEmpty
  | c :: t => needle.isPrefixOf (c :: t) || containsSub needle t

/-- `hay.includes(needle)` for Lean strings. -/
def jsIncludes (hay needle : String) : Bool :=
  containsSub needle.data hay.data

/-- ASCII-lowercasing, structurally recursive (JS `toLowerCase` on the
ASCII range the source compares). -/
def jsToLower (s : String) : String :=
  String.mk (s.data.map Char.toLower)

/-- JS `trim()`: strip leading and trailing whitespace. -/
def jsTrim (s : String) : String :=
  String.mk (((s.data.dropWhile Char.isWhitespace).reverse.dropWhile
    Char.isWhitespace).reverse)

/-- JS `s.split(sep)[0]` for a one-character separator: everything before
the first occurrence. -/
def splitFirst (s : String) (sep : Char) : String :=
  String.mk (s.data.takeWhile (fun c => c != sep))

/-- JS `split(" ")[0]` — the first word of a string (the whole string when
it has no space; `""` for the empty string). -/
def jsFirstWord (s : String) : String :=
  splitFirst s ' '

/-- Value of a non-empty all-digit prefix of a character list, if any
(the digit-consuming core of JS `parseInt`). -/
def leadingNat (l : List Char) : Option Nat :=
  let ds := l.takeWhile Char.isDigit
  if ds.isEmpty then none
  else some (ds.foldl (fun a c => a * 10 + (c.toNat - 48)) 0)

/-- Fuel-indexed core of global string replacement: replace every
non-overlapping occurrence of `pat`, scanning left to right. -/
def replaceGo (pat rep : List Char) : Nat → List Char → List Char
  | _, [] => []
  | 0, l => l
  | fuel + 1, c :: t =>
    if pat.isPrefixOf (c :: t) then
      rep ++ replaceGo pat rep fuel ((c :: t).drop pat.length)
    else c :: replaceGo pat rep fuel t

/-- JS `s.replace(/pat/g, rep)` for a literal non-empty pattern. -/
def jsReplaceAll (s pat rep : String) : String :=
  String.mk (replaceGo pat.data rep.data s.data.length s.data)

/-- JS `x || d` for a possibly-absent string `x` (both `undefined` and the
empty string are falsy). -/
def jsOr (x : Option String) (d : String) : String :=
  match x with
  | none => d
  | some s => if s = "" then d else s

/-- Lookup in an object-literal used as a string map (`Record<string,string>`). -/
def lookupStr (m : List (String × String)) (k : String) : Option String :=
  (m.find? (fun p => p.1 == k)).map (fun p => p.2)

/-- JS `parseInt` followed by the caller's `isNaN` rejection: parses an
optional sign and a non-empty run of leading decimal digits of the trimmed
string; anything else is `NaN` (here `none`). -/
def jsParseInt (s : String) : Option Int :=
  match (jsTrim s).data with
  | '-' :: rest => (leadingNat rest).map (fun n => -(n : Int))
  | '+' :: rest => (leadingNat rest).map (fun n => (n : Int))
  | l => (leadingNat l).map (fun n => (n : Int))

/-- `parseInt` on the always-numeric `data-step` attribute value. -/
def jsParseIntNat (s : String) : Nat :=
  (leadingNat s.data).getD 0

/-- `confirmationId?.trim() || undefined`: trim when present, and collapse
an (originally absent or) empty trimmed string to `undefined`. -/
def trimOrNone (x : Option String) : Option String :=
  match x with
  | none => none
  | some s => if jsTrim s = "" then none else some (jsTrim s)

/-! ## Data model (src/types.ts) -/

/-- `UserProfile` from `src/types.ts`.  Optional string fields are
`Option String`; the education / experience enums are carried as the
strings the source maps use as keys. -/
structure UserProfile where
  firstName : String
  lastName : String
  email : String
  phone : String
  location : String
  linkedIn : Option String
  portfolio : Option String
  school : String
  education : String
  experienceLevel : String
  skills : List String
  workAuthorized : Bool
  requiresVisa : Bool
  earliestStartDate : String
  salaryExpectation : Option String
  referralSource : String
  coverLetter : String
deriving DecidableEq, Repr

/-- `ApplicationResult` from `src/types.ts`. -/
structure ApplicationResult where
  success : Bool
  confirmationId : Option String := none
  error : Option String := none
  screenshotPath : Option String := none
  durationMs : Nat
deriving DecidableEq, Repr

/-! ## Interaction events, world state, page environment -/

/-- One UI action issued against the page.  Selectors are the source's
CSS selector strings. -/
inductive Ev where
  | scroll (sel : String)
  | hover (sel : String)
  | click (sel : String)
  | tripleClick (sel : String)
  | typeText (sel : String) (text : String)
  | press (sel : String) (key : String)
  | selectOpt (sel : String) (value : String)
  | selectOptLabel (sel : String) (label : String)
  | check (sel : String)
  | uploadFile (sel : String) (path : String)
  | fillVal (sel : String) (value : String)
  | setValue (sel : String) (value : Int)
  | waitSel (sel : String)
  | waitFn (desc : String)
deriving DecidableEq, Repr

/-- The selector (or description) an event targets. -/
def Ev.target : Ev → String
  | .scroll s => s
  | .hover s => s
  | .click s => s
  | .tripleClick s => s
  | .typeText s _ => s
  | .press s _ => s
  | .selectOpt s _ => s
  | .selectOptLabel s _ => s
  | .check s => s
  | .uploadFile s _ => s
  | .fillVal s _ => s
  | .setValue s _ => s
  | .waitSel s => s
  | .waitFn s => s

/-- Mutable run state: wall clock (`Date.now()`), index into the random
stream, the trace of issued actions, and the Acme wizard's currently
active step (the `data-step` of `.form-step.active`). -/
structure World where
  now : Nat
  rngIdx : Nat
  trace : List Ev
  acmeActiveStep : Nat
deriving DecidableEq, Repr

/-- Read-only description of how the page behaves: the random stream used
for delays, and the answers to every element-state read and every wait the
handlers can issue.  A wait flag `true` means the awaited condition becomes
observable within that wait's timeout. -/
structure PageEnv where
  rand : Nat → Nat
  /-- `locator.isChecked()` per selector. -/
  checkboxChecked : String → Bool
  -- Acme page
  schoolDropdownAppears : Bool
  schoolDropdownCount : Nat
  /-- whether `.form-step[data-step="n"].active` appears within 3000ms. -/
  stepBecomesActive : Nat → Bool
  visaGroupAppears : Bool
  referralOtherAppears : Bool
  confirmationAppears : Bool
  confirmationText : Option String
  -- Globex page
  sectionOpen : String → Bool
  spinnerAppears : Bool
  schoolResultsAppear : Bool
  /-- texts of `#g-school-results li:not(.typeahead-no-results)` in delivered order. -/
  schoolResultTexts : List String
  workAuthValue : Bool
  visaValue : Bool
  visaBlockAppears : Bool
  sourceOtherAppears : Bool
  refAppears : Bool
  refText : Option String
  chipSelected : String → Bool

/-! ## The interaction monad -/

/-- Outcome of running one async operation: normal return or a thrown
error (message), each with the world at completion time. -/
inductive Res (α : Type) : Type where
  | ok (a : α) (w : World)
  | err (e : String) (w : World)
deriving DecidableEq, Repr

/-- The world an operation left behind, however it ended. -/
def Res.world {α : Type} : Res α → World
  | .ok _ w => w
  | .err _ w => w

/-- An async TypeScript operation: reads/writes the world, may throw. -/
def M (α : Type) : Type := World → Res α

def M.pure {α : Type} (a : α) : M α := fun w => .ok a w

def M.bind {α β : Type} (m : M α) (f : α → M β) : M β := fun w =>
  match m w with
  | .ok a w₁ => f a w₁
  | .err e w₁ => .err e w₁

instance : Monad M where
  pure := M.pure
  bind := M.bind

theorem M.bind_def {α β : Type} (m : M α) (f : α → M β) : m >>= f = M.bind m f := rfl

theorem M.pure_def {α : Type} (a : α) : (pure a : M α) = M.pure a := rfl

/-- `throw new Error(e)`. -/
def throwM {α : Type} (e : String) : M α := fun w => .err e w

/-- Record one UI action.  (All world updates destructure the world so
that concrete runs reduce in linear time.) -/
def emitE (ev : Ev) : M Unit := fun w =>
  match w with
  | .mk now rngIdx trace step => .ok () (.mk now rngIdx (trace ++ [ev]) step)

/-- Let `d` milliseconds pass. -/
def passTime (d : Nat) : M Unit := fun w =>
  match w with
  | .mk now rngIdx trace step => .ok () (.mk (now + d) rngIdx trace step)

/-- Draw the next value of the page run's random stream. -/
def nextRand (env : PageEnv) : M Nat := fun w =>
  match w with
  | .mk now rngIdx trace step => .ok (env.rand rngIdx) (.mk now (rngIdx + 1) trace step)

/-- `currentStepEl.getAttribute("data-step")` — the wizard keeps the active
step's index in this attribute. -/
def getActiveStep : M Nat := fun w => .ok w.acmeActiveStep w

/-- The DOM marking step `n` active (observed by a successful step wait). -/
def setActiveStep (n : Nat) : M Unit := fun w =>
  match w with
  | .mk now rngIdx trace _step => .ok () (.mk now rngIdx trace n)

/-! ## Human-behavior utilities (src/utils/human-behavior.ts) -/

/-- `randomDelay(min, max)`: suspend for
`Math.floor(Math.random() * (max - min + 1)) + min` milliseconds. -/
def randomDelay (env : PageEnv) (lo hi : Nat) : M Unit := do
  let r ← nextRand env
  passTime (lo + r % (hi - lo + 1))

/-- `readingPause(min, max)` — just a longer `randomDelay`. -/
def readingPause (env : PageEnv) (lo hi : Nat) : M Unit :=
  randomDelay env lo hi

/-- `hoverAndClick`: hover, short pause, click. -/
def hoverAndClick (env : PageEnv) (sel : String) : M Unit := do
  emitE (.hover sel)
  randomDelay env 100 300
  emitE (.click sel)

/-- `smoothScrollTo`: scroll into view plus a pause. -/
def smoothScrollTo (env : PageEnv) (sel : String) : M Unit := do
  emitE (.scroll sel)
  randomDelay env 200 400

/-- Per-character pacing of `humanType`: letters/whitespace fastest
(50–80ms), digits slower (100–150ms), other characters slowest
(150–250ms); after each character, with probability 1/10, an extra
100–300ms micro-pause. -/
def charClassDelay (env : PageEnv) (c : Char) : M Unit := do
  let r ← nextRand env
  (if c.isAlpha || c.isWhitespace then passTime (50 + r % 31)
   else if c.isDigit then passTime (100 + r % 51)
   else passTime (150 + r % 101))
  let q ← nextRand env
  if q % 10 == 0 then randomDelay env 100 300 else pure ()

/-- The character-by-character loop body of `humanType`. -/
def typePace (env : PageEnv) : List Char → M Unit
  | [] => pure ()
  | c :: cs => do
    charClassDelay env c
    typePace env cs

/-- `humanType`: click the field, pause, then enter the text with
variable-speed keystrokes. -/
def humanType (env : PageEnv) (sel : String) (text : String) : M Unit := do
  emitE (.click sel)
  randomDelay env 50 150
  typePace env text.data
  emitE (.typeText sel text)

/-! ## Field interaction primitives (src/utils/field-fillers.ts) -/

/-- `fillTextInput`: scroll into view, pause, optionally select-all via a
triple click, then type with human pacing. -/
def fillTextInput (env : PageEnv) (sel : String) (value : String)
    (clearFirst : Bool := true) : M Unit := do
  emitE (.scroll sel)
  randomDelay env 100 200
  (if clearFirst then do
    emitE (.tripleClick sel)
    randomDelay env 50 100
   else pure ())
  humanType env sel value

/-- `fillTextarea` delegates to `fillTextInput`. -/
def fillTextarea (env : PageEnv) (sel : String) (value : String) : M Unit :=
  fillTextInput env sel value

/-- `selectOption`: scroll, pause, hover-click the select, pick `value`. -/
def selectOption (env : PageEnv) (sel : String) (value : String) : M Unit := do
  emitE (.scroll sel)
  randomDelay env 100 200
  hoverAndClick env sel
  randomDelay env 100 200
  emitE (.selectOpt sel value)
  randomDelay env 100 200

/-- The per-option predicate of `selectOptionByText`'s `options.find`:
exact (case-insensitive) equality with the normalized search text, OR the
option contains the search text, OR the search text contains the option's
first word. -/
def fuzzyClause (ns : String) (opt : String) : Bool :=
  let normalized := jsToLower opt
  normalized == ns
    || jsIncludes normalized ns
    || jsIncludes ns (jsFirstWord normalized)

/-- The `options.find((opt) => ...)` call of `selectOptionByText`. -/
def fuzzyFind (searchText : String) (options : List String) : Option String :=
  options.find? (fuzzyClause (jsTrim (jsToLower searchText)))

/-- `selectOptionByText`: fuzzy-match the free text against the option
labels; select the matched label, or fall back to selecting the raw text
as a literal option value. -/
def selectOptionByText (env : PageEnv) (sel : String) (searchText : String)
    (options : List String) : M Unit := do
  emitE (.scroll sel)
  randomDelay env 100 200
  hoverAndClick env sel
  randomDelay env 100 200
  (match fuzzyFind searchText options with
   | some m => emitE (.selectOptLabel sel m)
   | none => emitE (.selectOpt sel searchText))
  randomDelay env 100 200

/-- `checkCheckbox`: read the current checked state and click only when the
box is not yet checked. -/
def checkCheckbox (env : PageEnv) (sel : String) : M Unit := do
  emitE (.scroll sel)
  randomDelay env 100 200
  if env.checkboxChecked sel then pure ()
  else hoverAndClick env sel

/-- `clickRadio`: scroll, pause, hover-click. -/
def clickRadio (env : PageEnv) (sel : String) : M Unit := do
  emitE (.scroll sel)
  randomDelay env 100 200
  hoverAndClick env sel

/-- `uploadFile`: scroll, pause, set the input files, pause. -/
def uploadFile (env : PageEnv) (sel : String) (filePath : String) : M Unit := do
  emitE (.scroll sel)
  randomDelay env 200 400
  emitE (.uploadFile sel filePath)
  randomDelay env 300 600

/-- `fillDateInput`: scroll, pause, `locator.fill(dateString)`, pause. -/
def fillDateInput (env : PageEnv) (sel : String) (dateString : String) : M Unit := do
  emitE (.scroll sel)
  randomDelay env 100 200
  emitE (.fillVal sel dateString)
  randomDelay env 100 200

/-- `setSliderValue`: scroll, pause, assign the value property and fire
synthetic input/change events, pause. -/
def setSliderValue (env : PageEnv) (sel : String) (value : Int) : M Unit := do
  emitE (.scroll sel)
  randomDelay env 100 200
  emitE (.setValue sel value)
  randomDelay env 200 400

/-! ## Waits (playwright boundary) -/

/-- Timeout message of a failed `waitForSelector`. -/
def waitSelTimeoutMsg (sel : String) (t : Nat) : String :=
  "Timeout " ++ toString t ++ "ms exceeded waiting for selector " ++ sel

/-- Timeout message of a failed `waitForFunction`. -/
def waitFnTimeoutMsg (t : Nat) : String :=
  "page.waitForFunction: Timeout " ++ toString t ++ "ms exceeded."

/-- A hard `page.waitForSelector(sel, { timeout })`: if the page never
shows `sel` within the timeout, the full timeout elapses and the wait
throws. -/
def waitSelectorHard (appears : Bool) (sel : String) (t : Nat) : M Unit := do
  emitE (.waitSel sel)
  if appears then pure ()
  else do
    passTime t
    throwM (waitSelTimeoutMsg sel t)

/-- A best-effort `page.waitForSelector(...).catch(() => {})`: a timeout is
swallowed and the flow proceeds. -/
def waitSelectorSoft (appears : Bool) (sel : String) (t : Nat) : M Unit := do
  emitE (.waitSel sel)
  if appears then pure ()
  else passTime t

/-- A hard `page.waitForFunction(pred, { timeout })`. -/
def waitFunctionHard (appears : Bool) (desc : String) (t : Nat) : M Unit := do
  emitE (.waitFn desc)
  if appears then pure ()
  else do
    passTime t
    throwM (waitFnTimeoutMsg t)

/-! ## Acme handler (src/platforms/acme-handler.ts) -/

namespace AcmeHandler

/-- `canHandle`: URL-substring check with page-title-substring fallback. -/
def canHandle (url : String) (title : String) : Bool :=
  jsIncludes url "/acme.html" || jsIncludes title "Acme"

/-- `fillStep1`: personal information; LinkedIn/portfolio only when the
(optional) profile field is truthy. -/
def fillStep1 (env : PageEnv) (profile : UserProfile) : M Unit := do
  fillTextInput env "#first-name" profile.firstName
  fillTextInput env "#last-name" profile.lastName
  fillTextInput env "#email" profile.email
  fillTextInput env "#phone" profile.phone
  fillTextInput env "#location" profile.location
  (match profile.linkedIn with
   | some s => if s = "" then pure () else fillTextInput env "#linkedin" s
   | none => pure ())
  (match profile.portfolio with
   | some s => if s = "" then pure () else fillTextInput env "#portfolio" s
   | none => pure ())

/-- The education-value map of `fillStep2`. -/
def educationMap : List (String × String) :=
  [("high-school", "high-school"), ("associates", "associates"),
   ("bachelors", "bachelors"), ("masters", "masters"), ("phd", "phd")]

/-- The skill-checkbox map of `selectSkills`. -/
def skillMap : List (String × String) :=
  [("javascript", "javascript"), ("typescript", "typescript"),
   ("python", "python"), ("react", "react"), ("nodejs", "nodejs"),
   ("node.js", "nodejs"), ("sql", "sql"), ("git", "git"),
   ("docker", "docker")]

/-- Selector of one skill checkbox. -/
def skillSel (formValue : String) : String :=
  "input[name=\"skills\"][value=\"" ++ formValue ++ "\"]"

/-- The `for (const skill of skills)` loop of `selectSkills`: unmapped
skill names are silently skipped. -/
def selectSkillsGo (env : PageEnv) : List String → M Unit
  | [] => pure ()
  | skill :: rest => do
    (match lookupStr skillMap (jsTrim (jsToLower skill)) with
     | some formValue => checkCheckbox env (skillSel formValue)
     | none => pure ())
    selectSkillsGo env rest

/-- `selectSkills`. -/
def selectSkills (env : PageEnv) (skills : List String) : M Unit :=
  selectSkillsGo env skills

/-- `fillSchoolTypeahead` (synchronous variant): type, best-effort wait for
the dropdown, click the first item when any is present, otherwise commit
the typed text with Enter. -/
def fillSchoolTypeahead (env : PageEnv) (schoolName : String) : M Unit := do
  emitE (.scroll "#school")
  randomDelay env 100 200
  emitE (.click "#school")
  randomDelay env 100 200
  fillTextInput env "#school" schoolName false
  waitSelectorSoft env.schoolDropdownAppears "#school-dropdown:has(li)" 3000
  randomDelay env 300 500
  (if env.schoolDropdownCount > 0 then
    hoverAndClick env "#school-dropdown li:first"
   else emitE (.press "#school" "Enter"))
  randomDelay env 200 400

/-- `fillStep2`: resume upload, experience, education, school typeahead,
skills. -/
def fillStep2 (env : PageEnv) (profile : UserProfile) : M Unit := do
  uploadFile env "#resume" "fixtures/sample-resume.pdf"
  selectOption env "#experience-level" profile.experienceLevel
  selectOption env "#education" (jsOr (lookupStr educationMap profile.education) "bachelors")
  fillSchoolTypeahead env profile.school
  selectSkills env profile.skills

/-- `adaptCoverLetter`: rewrite any known company name to the target. -/
def adaptCoverLetter (coverLetter companyName : String) : String :=
  jsReplaceAll (jsReplaceAll (jsReplaceAll coverLetter "Acme Corp" companyName)
    "Globex Corporation" companyName) "Globex" companyName

/-- The referral-source map of `selectReferralSource`. -/
def sourceMap : List (String × String) :=
  [("linkedin", "linkedin"), ("company-website", "company-website"),
   ("job-board", "job-board"), ("referral", "referral"),
   ("university", "university"), ("other", "other")]

/-- `selectReferralSource`: map the free text (defaulting to "linkedin"),
select it, and when the mapped value is "other" hard-wait for the
free-text group and type the original text. -/
def selectReferralSource (env : PageEnv) (source : String) : M Unit := do
  let formValue := jsOr (lookupStr sourceMap (jsTrim (jsToLower source))) "linkedin"
  selectOption env "#referral" formValue
  if formValue == "other" then do
    waitSelectorHard env.referralOtherAppears "#referral-other-group" 2000
    randomDelay env 200 400
    fillTextInput env "#referral-other" source
  else pure ()

/-- Selector of one work-authorization radio button. -/
def workAuthSel (v : String) : String :=
  "input[name=\"workAuth\"][value=\"" ++ v ++ "\"]"

/-- Selector of one visa-sponsorship radio button. -/
def visaSel (v : String) : String :=
  "input[name=\"visaSponsorship\"][value=\"" ++ v ++ "\"]"

/-- `fillStep3`: work authorization, conditional visa sponsorship (hard
wait for its container, only when work-authorized), start date, optional
salary, referral source, cover letter. -/
def fillStep3 (env : PageEnv) (profile : UserProfile) : M Unit := do
  clickRadio env (workAuthSel (if profile.workAuthorized then "yes" else "no"))
  (if profile.workAuthorized then do
    waitSelectorHard env.visaGroupAppears "#visa-sponsorship-group" 2000
    randomDelay env 200 400
    clickRadio env (visaSel (if profile.requiresVisa then "yes" else "no"))
   else pure ())
  fillDateInput env "#start-date" profile.earliestStartDate
  (match profile.salaryExpectation with
   | some s => if s = "" then pure () else fillTextInput env "#salary-expectation" s
   | none => pure ())
  selectReferralSource env profile.referralSource
  fillTextarea env "#cover-letter" (adaptCoverLetter profile.coverLetter "Acme Corp")

/-- `fillStep4`: terms checkbox. -/
def fillStep4 (env : PageEnv) : M Unit :=
  checkCheckbox env "#terms-agree"

/-- Selector of the active step's Continue button. -/
def continueSel : String :=
  ".form-step.active button.btn-primary:has-text(\x27Continue\x27)"

/-- Selector marking step `n` active. -/
def stepSel (n : Nat) : String :=
  ".form-step[data-step=\"" ++ toString n ++ "\"].active"

/-- `clickNext`: read the active step's `data-step`, click its Continue
button, and hard-wait for the next step index to be marked active. -/
def clickNext (env : PageEnv) : M Unit := do
  let n ← getActiveStep
  let attr := some (toString n)
  let nextStepNum := match attr with
    | some s => jsParseIntNat s + 1
    | none => 1
  smoothScrollTo env continueSel
  randomDelay env 200 400
  emitE (.click continueSel)
  waitSelectorHard (env.stepBecomesActive nextStepNum) (stepSel nextStepNum) 3000
  setActiveStep nextStepNum
  randomDelay env 300 600

/-- `submitForm`. -/
def submitForm (env : PageEnv) : M Unit := do
  smoothScrollTo env "#submit-btn"
  randomDelay env 500 1000
  emitE (.click "#submit-btn")
  randomDelay env 1000 2000

/-- The fill-and-submit steps of `fillAndSubmit` up to (and including)
pressing Submit. -/
def fillFlow (env : PageEnv) (profile : UserProfile) : M Unit := do
  fillStep1 env profile
  clickNext env
  readingPause env 500 1000
  fillStep2 env profile
  clickNext env
  readingPause env 500 1000
  fillStep3 env profile
  clickNext env
  readingPause env 1000 2000
  fillStep4 env
  submitForm env

/-- Everything inside the `try` of `fillAndSubmit`: fill, submit,
hard-wait for `#confirmation-id` and read its text. -/
def tryBody (env : PageEnv) (profile : UserProfile) : M (Option String) := do
  fillFlow env profile
  waitSelectorHard env.confirmationAppears "#confirmation-id" 10000
  pure env.confirmationText

/-- `fillAndSubmit`: run the body, catching any thrown error at the top
and converting it into a failure `ApplicationResult`.  Total by
construction — the catch guarantees an `ApplicationResult` is always
returned to the caller. -/
def fillAndSubmit (env : PageEnv) (profile : UserProfile) :
    World → ApplicationResult × World := fun w =>
  let startTime := w.now
  match tryBody env profile w with
  | .ok confirmationId w₁ =>
    ({ success := true, confirmationId := trimOrNone confirmationId,
       durationMs := w₁.now - startTime }, w₁)
  | .err e w₁ =>
    ({ success := false, error := some e,
       durationMs := w₁.now - startTime }, w₁)

end AcmeHandler

/-! ## Globex handler (src/platforms/globex-handler.ts) -/

namespace GlobexHandler

/-- `canHandle`: URL-substring check with page-title-substring fallback. -/
def canHandle (url : String) (title : String) : Bool :=
  jsIncludes url "/globex.html" || jsIncludes title "Globex"

/-- Selector of an accordion section's header. -/
def sectionHeaderSel (sectionName : String) : String :=
  "[data-section=\"" ++ sectionName ++ "\"] .section-header"

/-- `expandSection`: scroll to the header, check the "open" marker, and
only when absent activate the header and wait for the expand animation. -/
def expandSection (env : PageEnv) (sectionName : String) : M Unit := do
  smoothScrollTo env (sectionHeaderSel sectionName)
  randomDelay env 200 400
  if env.sectionOpen sectionName then pure ()
  else do
    hoverAndClick env (sectionHeaderSel sectionName)
    randomDelay env 300 500

/-- `fillContactDetails`. -/
def fillContactDetails (env : PageEnv) (profile : UserProfile) : M Unit := do
  fillTextInput env "#g-fname" profile.firstName
  fillTextInput env "#g-lname" profile.lastName
  fillTextInput env "#g-email" profile.email
  fillTextInput env "#g-phone" profile.phone
  fillTextInput env "#g-city" (jsTrim (splitFirst profile.location ','))
  (match profile.linkedIn with
   | some s => if s = "" then pure () else fillTextInput env "#g-linkedin" s
   | none => pure ())
  (match profile.portfolio with
   | some s => if s = "" then pure () else fillTextInput env "#g-website" s
   | none => pure ())

/-- The experience map of `fillQualifications`. -/
def experienceMap : List (String × String) :=
  [("0-1", "intern"), ("1-3", "junior"), ("3-5", "mid"),
   ("5-10", "senior"), ("10+", "staff")]

/-- The degree map of `fillQualifications`. -/
def degreeMap : List (String × String) :=
  [("high-school", "hs"), ("associates", "assoc"), ("bachelors", "bs"),
   ("masters", "ms"), ("phd", "phd")]

/-- The loop condition `text && text.toLowerCase().includes(schoolName.toLowerCase())`:
an item matches when its text is non-empty (JS truthiness) and contains
the typed query as a case-insensitive substring. -/
def typeaheadItemMatches (query t : String) : Bool :=
  t != "" && jsIncludes (jsToLower t) (jsToLower query)

/-- The scan of the shuffled result list: first index whose (truthy) text
contains the typed value case-insensitively.  `i` is the loop counter. -/
def typeaheadMatchIdxGo (query : String) : List String → Nat → Option Nat
  | [], _ => none
  | t :: rest, i =>
    if typeaheadItemMatches query t then some i
    else typeaheadMatchIdxGo query rest (i + 1)

/-- Index found by the `for (let i = 0; i < count; i++)` matching loop of
`fillAsyncTypeahead`, if any. -/
def typeaheadMatchIdx (texts : List String) (query : String) : Option Nat :=
  typeaheadMatchIdxGo query texts 0

/-- The index `fillAsyncTypeahead` clicks: the matching index when the
scan found one, otherwise index 0 when the list is non-empty. -/
def typeaheadSelIdx (texts : List String) (query : String) : Option Nat :=
  match typeaheadMatchIdx texts query with
  | some i => some i
  | none => if texts.length > 0 then some 0 else none

/-- Selector of the `i`-th delivered result item. -/
def resultItemSel (i : Nat) : String :=
  "#g-school-results li:nth(" ++ toString i ++ ")"

/-- `fillAsyncTypeahead` (asynchronous variant): type, best-effort wait for
the spinner, hard wait for the result container to be open with at least
one item, scan the shuffled items for a case-insensitive substring match,
click the match or fall back to the first item. -/
def fillAsyncTypeahead (env : PageEnv) (schoolName : String) : M Unit := do
  emitE (.scroll "#g-school")
  randomDelay env 100 200
  emitE (.click "#g-school")
  randomDelay env 100 200
  fillTextInput env "#g-school" schoolName false
  waitSelectorSoft env.spinnerAppears "#g-school-spinner.loading" 2000
  waitFunctionHard env.schoolResultsAppear
    "#g-school-results open with non-empty item" 5000
  randomDelay env 200 400
  (match typeaheadMatchIdx env.schoolResultTexts schoolName with
   | some i => hoverAndClick env (resultItemSel i)
   | none =>
     if env.schoolResultTexts.length > 0 then hoverAndClick env (resultItemSel 0)
     else pure ())
  randomDelay env 200 400

/-- The chip map of `selectSkillChips`. -/
def chipMap : List (String × String) :=
  [("javascript", "js"), ("typescript", "ts"), ("python", "py"),
   ("react", "react"), ("nodejs", "node"), ("node.js", "node"),
   ("sql", "sql"), ("git", "git"), ("docker", "docker")]

/-- Selector of one skill chip. -/
def chipSel (chipValue : String) : String :=
  "#g-skills .chip[data-skill=\"" ++ chipValue ++ "\"]"

/-- The loop of `selectSkillChips`: unmapped skills silently skipped;
already-selected chips not clicked again. -/
def selectSkillChipsGo (env : PageEnv) : List String → M Unit
  | [] => pure ()
  | skill :: rest => do
    (match lookupStr chipMap (jsTrim (jsToLower skill)) with
     | some chipValue => do
       emitE (.scroll (chipSel chipValue))
       randomDelay env 100 200
       if env.chipSelected chipValue then pure ()
       else hoverAndClick env (chipSel chipValue)
     | none => pure ())
    selectSkillChipsGo env rest

/-- `selectSkillChips`. -/
def selectSkillChips (env : PageEnv) (skills : List String) : M Unit :=
  selectSkillChipsGo env skills

/-- `fillQualifications`: resume, experience, degree, async typeahead,
skill chips. -/
def fillQualifications (env : PageEnv) (profile : UserProfile) : M Unit := do
  uploadFile env "#g-resume" "fixtures/sample-resume.pdf"
  selectOption env "#g-experience" (jsOr (lookupStr experienceMap profile.experienceLevel) "intern")
  selectOption env "#g-degree" (jsOr (lookupStr degreeMap profile.education) "bs")
  fillAsyncTypeahead env profile.school
  selectSkillChips env profile.skills

/-- `adaptCoverLetter` (identical to the Acme copy). -/
def adaptCoverLetter (coverLetter companyName : String) : String :=
  jsReplaceAll (jsReplaceAll (jsReplaceAll coverLetter "Acme Corp" companyName)
    "Globex Corporation" companyName) "Globex" companyName

/-- The referral-source map of `selectReferralSource` (Globex values). -/
def sourceMap : List (String × String) :=
  [("linkedin", "linkedin"), ("company-website", "website"),
   ("job-board", "board"), ("referral", "referral"),
   ("university", "university"), ("other", "other")]

/-- `selectReferralSource` (Globex). -/
def selectReferralSource (env : PageEnv) (source : String) : M Unit := do
  let formValue := jsOr (lookupStr sourceMap (jsTrim (jsToLower source))) "linkedin"
  selectOption env "#g-source" formValue
  if formValue == "other" then do
    waitSelectorHard env.sourceOtherAppears "#g-source-other-block.visible" 2000
    randomDelay env 200 400
    fillTextInput env "#g-source-other" source
  else pure ()

/-- `fillAdditionalInfo`: work-authorization toggle (read current state,
flip only on disagreement), conditional visa toggle behind a best-effort
wait for its block (only when work-authorized), start date, optional
salary slider, referral source, motivation textarea. -/
def fillAdditionalInfo (env : PageEnv) (profile : UserProfile) : M Unit := do
  smoothScrollTo env "#g-work-auth-toggle"
  randomDelay env 100 200
  (if profile.workAuthorized != env.workAuthValue then do
    hoverAndClick env "#g-work-auth-toggle"
    randomDelay env 300 500
   else pure ())
  (if profile.workAuthorized then do
    waitSelectorSoft env.visaBlockAppears "#g-visa-block.visible" 2000
    (if profile.requiresVisa != env.visaValue then do
      hoverAndClick env "#g-visa-toggle"
      randomDelay env 200 400
     else pure ())
   else pure ())
  fillDateInput env "#g-start-date" profile.earliestStartDate
  (match profile.salaryExpectation with
   | some s =>
     if s = "" then pure ()
     else
       match jsParseInt s with
       | some salary => setSliderValue env "#g-salary" salary
       | none => pure ()
   | none => pure ())
  selectReferralSource env profile.referralSource
  fillTextarea env "#g-motivation" (adaptCoverLetter profile.coverLetter "Globex Corporation")

/-- `submitForm`: consent checkbox, then the submit button. -/
def submitForm (env : PageEnv) : M Unit := do
  smoothScrollTo env "#g-consent"
  randomDelay env 200 400
  emitE (.check "#g-consent")
  randomDelay env 200 400
  smoothScrollTo env "#globex-submit"
  randomDelay env 500 1000
  hoverAndClick env "#globex-submit"
  randomDelay env 1000 2000

/-- The fill-and-submit steps of `fillAndSubmit` up to (and including)
pressing Submit. -/
def fillFlow (env : PageEnv) (profile : UserProfile) : M Unit := do
  expandSection env "contact"
  fillContactDetails env profile
  readingPause env 300 600
  expandSection env "qualifications"
  fillQualifications env profile
  readingPause env 300 600
  expandSection env "additional"
  fillAdditionalInfo env profile
  readingPause env 500 1000
  submitForm env

/-- Everything inside the `try` of `fillAndSubmit`. -/
def tryBody (env : PageEnv) (profile : UserProfile) : M (Option String) := do
  fillFlow env profile
  waitSelectorHard env.refAppears "#globex-ref" 10000
  pure env.refText

/-- `fillAndSubmit` (Globex): identical catch-at-the-boundary shape. -/
def fillAndSubmit (env : PageEnv) (profile : UserProfile) :
    World → ApplicationResult × World := fun w =>
  let startTime := w.now
  match tryBody env profile w with
  | .ok confirmationId w₁ =>
    ({ success := true, confirmationId := trimOrNone confirmationId,
       durationMs := w₁.now - startTime }, w₁)
  | .err e w₁ =>
    ({ success := false, error := some e,
       durationMs := w₁.now - startTime }, w₁)

end GlobexHandler

/-! ## Platform registry (src/platforms/registry.ts) -/

/-- What `detect`/`canHandle` consumes: the target URL and the page title. -/
structure PageInfo where
  url : String
  title : String
deriving DecidableEq, Repr

/-- The two registered handlers, as a closed set of tags. -/
inductive HandlerId where
  | acme
  | globex
deriving DecidableEq, Repr

/-- Dispatch of `handler.canHandle(page, url)` over the handler tag. -/
def handlerCanHandle : HandlerId → PageInfo → Bool
  | .acme, p => AcmeHandler.canHandle p.url p.title
  | .globex, p => GlobexHandler.canHandle p.url p.title

/-- The registration order fixed in the `PlatformRegistry` constructor:
Acme first, then Globex. -/
def registryHandlers : List HandlerId := [.acme, .globex]

/-- `PlatformRegistry.findHandler`: iterate the handlers in registration
order, return the first whose detection predicate holds, `none` when no
handler claims the page. -/
def findHandler (p : PageInfo) : Option HandlerId :=
  registryHandlers.find? (fun h => handlerCanHandle h p)

/-! ## Run lemmas for the monad -/

theorem M.run_bind_ok {α β : Type} {m : M α} {f : α → M β} {w w₁ : World}
    {a : α} (h : m w = .ok a w₁) : (m >>= f) w = f a w₁ := by
  simp [M.bind_def, M.bind, h]

theorem M.run_bind_err {α β : Type} {m : M α} {f : α → M β} {w w₁ : World}
    {e : String} (h : m w = .err e w₁) : (m >>= f) w = .err e w₁ := by
  simp [M.bind_def, M.bind, h]

/-! ## Totality: operations that cannot throw

`TotP m` says `m` returns normally from every world and leaves the
wizard's active-step observation unchanged (only a successful step wait
changes it). -/

def TotP {α : Type} (m : M α) : Prop :=
  ∀ w, ∃ a w₁, m w = .ok a w₁ ∧ w₁.acmeActiveStep = w.acmeActiveStep

theorem totP_bind {α β : Type} {m : M α} {f : α → M β} (hm : TotP m)
    (hf : ∀ a, TotP (f a)) : TotP (m >>= f) := by
  intro w
  obtain ⟨a, w₁, h1, hs1⟩ := hm w
  obtain ⟨b, w₂, h2, hs2⟩ := hf a w₁
  exact ⟨b, w₂, by rw [M.run_bind_ok h1, h2], by rw [hs2, hs1]⟩

theorem totP_pure {α : Type} (a : α) : TotP (pure a : M α) :=
  fun w => ⟨a, w, rfl, rfl⟩

theorem totP_ite {α : Type} {c : Prop} [Decidable c] {m₁ m₂ : M α}
    (h₁ : TotP m₁) (h₂ : TotP m₂) : TotP (if c then m₁ else m₂) := by
  split <;> assumption

theorem totP_emitE (ev : Ev) : TotP (emitE ev) :=
  fun _w => ⟨(), _, rfl, rfl⟩

theorem totP_passTime (d : Nat) : TotP (passTime d) :=
  fun _w => ⟨(), _, rfl, rfl⟩

theorem totP_nextRand (env : PageEnv) : TotP (nextRand env) :=
  fun _w => ⟨_, _, rfl, rfl⟩

theorem totP_randomDelay (env : PageEnv) (lo hi : Nat) :
    TotP (randomDelay env lo hi) := by
  unfold randomDelay
  exact totP_bind (totP_nextRand env) (fun r => totP_passTime _)

theorem totP_readingPause (env : PageEnv) (lo hi : Nat) :
    TotP (readingPause env lo hi) :=
  totP_randomDelay env lo hi

theorem totP_hoverAndClick (env : PageEnv) (sel : String) :
    TotP (hoverAndClick env sel) := by
  unfold hoverAndClick
  exact totP_bind (totP_emitE _) (fun _ =>
    totP_bind (totP_randomDelay env 100 300) (fun _ => totP_emitE _))

theorem totP_smoothScrollTo (env : PageEnv) (sel : String) :
    TotP (smoothScrollTo env sel) := by
  unfold smoothScrollTo
  exact totP_bind (totP_emitE _) (fun _ => totP_randomDelay env 200 400)

theorem totP_charClassDelay (env : PageEnv) (c : Char) :
    TotP (charClassDelay env c) := by
  unfold charClassDelay
  refine totP_bind (totP_nextRand env) (fun r => totP_bind ?_ (fun _ =>
    totP_bind (totP_nextRand env) (fun q =>
      totP_ite (totP_randomDelay env 100 300) (totP_pure ()))))
  exact totP_ite (totP_passTime _) (totP_ite (totP_passTime _) (totP_passTime _))

theorem totP_typePace (env : PageEnv) (cs : List Char) :
    TotP (typePace env cs) := by
  induction cs with
  | nil => exact totP_pure ()
  | cons c cs ih =>
    unfold typePace
    exact totP_bind (totP_charClassDelay env c) (fun _ => ih)

theorem totP_humanType (env : PageEnv) (sel text : String) :
    TotP (humanType env sel text) := by
  unfold humanType
  exact totP_bind (totP_emitE _) (fun _ =>
    totP_bind (totP_randomDelay env 50 150) (fun _ =>
      totP_bind (totP_typePace env text.data) (fun _ => totP_emitE _)))

theorem totP_fillTextInput (env : PageEnv) (sel value : String) (b : Bool) :
    TotP (fillTextInput env sel value b) := by
  unfold fillTextInput
  exact totP_bind (totP_emitE _) (fun _ =>
    totP_bind (totP_randomDelay env 100 200) (fun _ =>
      totP_bind
        (totP_ite
          (totP_bind (totP_emitE _) (fun _ => totP_randomDelay env 50 100))
          (totP_pure ()))
        (fun _ => totP_humanType env sel value)))

theorem totP_fillTextarea (env : PageEnv) (sel value : String) :
    TotP (fillTextarea env sel value) :=
  totP_fillTextInput env sel value true

theorem totP_selectOption (env : PageEnv) (sel value : String) :
    TotP (selectOption env sel value) := by
  unfold selectOption
  exact totP_bind (totP_emitE _) (fun _ =>
    totP_bind (totP_randomDelay env 100 200) (fun _ =>
      totP_bind (totP_hoverAndClick env sel) (fun _ =>
        totP_bind (totP_randomDelay env 100 200) (fun _ =>
          totP_bind (totP_emitE _) (fun _ => totP_randomDelay env 100 200)))))

theorem totP_checkCheckbox (env : PageEnv) (sel : String) :
    TotP (checkCheckbox env sel) := by
  unfold checkCheckbox
  exact totP_bind (totP_emitE _) (fun _ =>
    totP_bind (totP_randomDelay env 100 200) (fun _ =>
      totP_ite (totP_pure ()) (totP_hoverAndClick env sel)))

theorem totP_clickRadio (env : PageEnv) (sel : String) :
    TotP (clickRadio env sel) := by
  unfold clickRadio
  exact totP_bind (totP_emitE _) (fun _ =>
    totP_bind (totP_randomDelay env 100 200) (fun _ => totP_hoverAndClick env sel))

theorem totP_uploadFile (env : PageEnv) (sel path : String) :
    TotP (uploadFile env sel path) := by
  unfold uploadFile
  exact totP_bind (totP_emitE _) (fun _ =>
    totP_bind (totP_randomDelay env 200 400) (fun _ =>
      totP_bind (totP_emitE _) (fun _ => totP_randomDelay env 300 600)))

theorem totP_fillDateInput (env : PageEnv) (sel d : String) :
    TotP (fillDateInput env sel d) := by
  unfold fillDateInput
  exact totP_bind (totP_emitE _) (fun _ =>
    totP_bind (totP_randomDelay env 100 200) (fun _ =>
      totP_bind (totP_emitE _) (fun _ => totP_randomDelay env 100 200)))

theorem totP_setSliderValue (env : PageEnv) (sel : String) (v : Int) :
    TotP (setSliderValue env sel v) := by
  unfold setSliderValue
  exact totP_bind (totP_emitE _) (fun _ =>
    totP_bind (totP_randomDelay env 100 200) (fun _ =>
      totP_bind (totP_emitE _) (fun _ => totP_randomDelay env 200 400)))

theorem totP_waitSelectorSoft (appears : Bool) (sel : String) (t : Nat) :
    TotP (waitSelectorSoft appears sel t) := by
  unfold waitSelectorSoft
  exact totP_bind (totP_emitE _) (fun _ =>
    totP_ite (totP_pure ()) (totP_passTime t))

theorem totP_waitSelectorHard (sel : String) (t : Nat) :
    TotP (waitSelectorHard true sel t) := by
  unfold waitSelectorHard
  exact totP_bind (totP_emitE _) (fun _ => totP_pure ())

theorem totP_waitFunctionHard (desc : String) (t : Nat) :
    TotP (waitFunctionHard true desc t) := by
  unfold waitFunctionHard
  exact totP_bind (totP_emitE _) (fun _ => totP_pure ())

/-! ## Trace emission: which events an operation can add

`EmitsOnly P m` says every event found in the trace after running `m`
(whether it returned or threw) was already there or satisfies `P`. -/

def EmitsOnly {α : Type} (P : Ev → Prop) (m : M α) : Prop :=
  ∀ w e, e ∈ (m w).world.trace → e ∈ w.trace ∨ P e

theorem emits_bind {α β : Type} {P : Ev → Prop} {m : M α} {f : α → M β}
    (hm : EmitsOnly P m) (hf : ∀ a, EmitsOnly P (f a)) :
    EmitsOnly P (m >>= f) := by
  intro w e he
  cases hmr : m w with
  | ok a w₁ =>
    rw [M.run_bind_ok hmr] at he
    rcases hf a w₁ e he with h | h
    · rcases hm w e (by rw [hmr]; exact h) with h' | h'
      · exact Or.inl h'
      · exact Or.inr h'
    · exact Or.inr h
  | err ex w₁ =>
    rw [M.run_bind_err hmr] at he
    exact hm w e (by rw [hmr]; exact he)

theorem emits_pure {α : Type} {P : Ev → Prop} (a : α) :
    EmitsOnly P (pure a : M α) := fun _w _e he => Or.inl he

theorem emits_ite {α : Type} {P : Ev → Prop} {c : Prop} [Decidable c]
    {m₁ m₂ : M α} (h₁ : EmitsOnly P m₁) (h₂ : EmitsOnly P m₂) :
    EmitsOnly P (if c then m₁ else m₂) := by
  split <;> assumption

theorem emits_emitE {P : Ev → Prop} {ev : Ev} (h : P ev) :
    EmitsOnly P (emitE ev) := by
  intro w e he
  simp only [emitE, Res.world, List.mem_append, List.mem_singleton] at he
  rcases he with he | rfl
  · exact Or.inl he
  · exact Or.inr h

theorem emits_passTime {P : Ev → Prop} (d : Nat) : EmitsOnly P (passTime d) :=
  fun _w _e he => Or.inl he

theorem emits_nextRand {P : Ev → Prop} (env : PageEnv) :
    EmitsOnly P (nextRand env) := fun _w _e he => Or.inl he

theorem emits_throwM {α : Type} {P : Ev → Prop} (s : String) :
    EmitsOnly P (throwM s : M α) := fun _w _e he => Or.inl he

theorem emits_getActiveStep {P : Ev → Prop} : EmitsOnly P getActiveStep :=
  fun _w _e he => Or.inl he

theorem emits_setActiveStep {P : Ev → Prop} (n : Nat) :
    EmitsOnly P (setActiveStep n) := fun _w _e he => Or.inl he

theorem emits_randomDelay {P : Ev → Prop} (env : PageEnv) (lo hi : Nat) :
    EmitsOnly P (randomDelay env lo hi) := by
  unfold randomDelay
  exact emits_bind (emits_nextRand env) (fun r => emits_passTime _)

theorem emits_readingPause {P : Ev → Prop} (env : PageEnv) (lo hi : Nat) :
    EmitsOnly P (readingPause env lo hi) :=
  emits_randomDelay env lo hi

theorem emits_hoverAndClick {P : Ev → Prop} {env : PageEnv} {sel : String}
    (h1 : P (.hover sel)) (h2 : P (.click sel)) :
    EmitsOnly P (hoverAndClick env sel) := by
  unfold hoverAndClick
  exact emits_bind (emits_emitE h1) (fun _ =>
    emits_bind (emits_randomDelay env 100 300) (fun _ => emits_emitE h2))

theorem emits_smoothScrollTo {P : Ev → Prop} {env : PageEnv} {sel : String}
    (h : P (.scroll sel)) : EmitsOnly P (smoothScrollTo env sel) := by
  unfold smoothScrollTo
  exact emits_bind (emits_emitE h) (fun _ => emits_randomDelay env 200 400)

theorem emits_charClassDelay {P : Ev → Prop} (env : PageEnv) (c : Char) :
    EmitsOnly P (charClassDelay env c) := by
  unfold charClassDelay
  refine emits_bind (emits_nextRand env) (fun r => emits_bind ?_ (fun _ =>
    emits_bind (emits_nextRand env) (fun q =>
      emits_ite (emits_randomDelay env 100 300) (emits_pure ()))))
  exact emits_ite (emits_passTime _) (emits_ite (emits_passTime _) (emits_passTime _))

theorem emits_typePace {P : Ev → Prop} (env : PageEnv) (cs : List Char) :
    EmitsOnly P (typePace env cs) := by
  induction cs with
  | nil => exact emits_pure ()
  | cons c cs ih =>
    unfold typePace
    exact emits_bind (emits_charClassDelay env c) (fun _ => ih)

theorem emits_humanType {P : Ev → Prop} {env : PageEnv} {sel text : String}
    (h1 : P (.click sel)) (h2 : P (.typeText sel text)) :
    EmitsOnly P (humanType env sel text) := by
  unfold humanType
  exact emits_bind (emits_emitE h1) (fun _ =>
    emits_bind (emits_randomDelay env 50 150) (fun _ =>
      emits_bind (emits_typePace env text.data) (fun _ => emits_emitE h2)))

theorem emits_fillTextInput {P : Ev → Prop} {env : PageEnv}
    {sel value : String} {b : Bool} (h1 : P (.scroll sel))
    (h2 : P (.tripleClick sel)) (h3 : P (.click sel))
    (h4 : P (.typeText sel value)) :
    EmitsOnly P (fillTextInput env sel value b) := by
  unfold fillTextInput
  exact emits_bind (emits_emitE h1) (fun _ =>
    emits_bind (emits_randomDelay env 100 200) (fun _ =>
      emits_bind
        (emits_ite
          (emits_bind (emits_emitE h2) (fun _ => emits_randomDelay env 50 100))
          (emits_pure ()))
        (fun _ => emits_humanType h3 h4)))

theorem emits_fillTextarea {P : Ev → Prop} {env : PageEnv}
    {sel value : String} (h1 : P (.scroll sel)) (h2 : P (.tripleClick sel))
    (h3 : P (.click sel)) (h4 : P (.typeText sel value)) :
    EmitsOnly P (fillTextarea env sel value) :=
  emits_fillTextInput h1 h2 h3 h4

theorem emits_selectOption {P : Ev → Prop} {env : PageEnv}
    {sel value : String} (h1 : P (.scroll sel)) (h2 : P (.hover sel))
    (h3 : P (.click sel)) (h4 : P (.selectOpt sel value)) :
    EmitsOnly P (selectOption env sel value) := by
  unfold selectOption
  exact emits_bind (emits_emitE h1) (fun _ =>
    emits_bind (emits_randomDelay env 100 200) (fun _ =>
      emits_bind (emits_hoverAndClick h2 h3) (fun _ =>
        emits_bind (emits_randomDelay env 100 200) (fun _ =>
          emits_bind (emits_emitE h4) (fun _ => emits_randomDelay env 100 200)))))

theorem emits_checkCheckbox {P : Ev → Prop} {env : PageEnv} {sel : String}
    (h1 : P (.scroll sel)) (h2 : P (.hover sel)) (h3 : P (.click sel)) :
    EmitsOnly P (checkCheckbox env sel) := by
  unfold checkCheckbox
  exact emits_bind (emits_emitE h1) (fun _ =>
    emits_bind (emits_randomDelay env 100 200) (fun _ =>
      emits_ite (emits_pure ()) (emits_hoverAndClick h2 h3)))

theorem emits_clickRadio {P : Ev → Prop} {env : PageEnv} {sel : String}
    (h1 : P (.scroll sel)) (h2 : P (.hover sel)) (h3 : P (.click sel)) :
    EmitsOnly P (clickRadio env sel) := by
  unfold clickRadio
  exact emits_bind (emits_emitE h1) (fun _ =>
    emits_bind (emits_randomDelay env 100 200) (fun _ => emits_hoverAndClick h2 h3))

theorem emits_uploadFile {P : Ev → Prop} {env : PageEnv} {sel path : String}
    (h1 : P (.scroll sel)) (h2 : P (.uploadFile sel path)) :
    EmitsOnly P (uploadFile env sel path) := by
  unfold uploadFile
  exact emits_bind (emits_emitE h1) (fun _ =>
    emits_bind (emits_randomDelay env 200 400) (fun _ =>
      emits_bind (emits_emitE h2) (fun _ => emits_randomDelay env 300 600)))

theorem emits_fillDateInput {P : Ev → Prop} {env : PageEnv} {sel d : String}
    (h1 : P (.scroll sel)) (h2 : P (.fillVal sel d)) :
    EmitsOnly P (fillDateInput env sel d) := by
  unfold fillDateInput
  exact emits_bind (emits_emitE h1) (fun _ =>
    emits_bind (emits_randomDelay env 100 200) (fun _ =>
      emits_bind (emits_emitE h2) (fun _ => emits_randomDelay env 100 200)))

theorem emits_setSliderValue {P : Ev → Prop} {env : PageEnv} {sel : String}
    {v : Int} (h1 : P (.scroll sel)) (h2 : P (.setValue sel v)) :
    EmitsOnly P (setSliderValue env sel v) := by
  unfold setSliderValue
  exact emits_bind (emits_emitE h1) (fun _ =>
    emits_bind (emits_randomDelay env 100 200) (fun _ =>
      emits_bind (emits_emitE h2) (fun _ => emits_randomDelay env 200 400)))

theorem emits_waitSelectorHard {P : Ev → Prop} {appears : Bool}
    {sel : String} {t : Nat} (h : P (.waitSel sel)) :
    EmitsOnly P (waitSelectorHard appears sel t) := by
  unfold waitSelectorHard
  exact emits_bind (emits_emitE h) (fun _ =>
    emits_ite (emits_pure ()) (emits_bind (emits_passTime t) (fun _ => emits_throwM _)))

theorem emits_waitSelectorSoft {P : Ev → Prop} {appears : Bool}
    {sel : String} {t : Nat} (h : P (.waitSel sel)) :
    EmitsOnly P (waitSelectorSoft appears sel t) := by
  unfold waitSelectorSoft
  exact emits_bind (emits_emitE h) (fun _ =>
    emits_ite (emits_pure ()) (emits_passTime t))

theorem emits_waitFunctionHard {P : Ev → Prop} {appears : Bool}
    {desc : String} {t : Nat} (h : P (.waitFn desc)) :
    EmitsOnly P (waitFunctionHard appears desc t) := by
  unfold waitFunctionHard
  exact emits_bind (emits_emitE h) (fun _ =>
    emits_ite (emits_pure ()) (emits_bind (emits_passTime t) (fun _ => emits_throwM _)))

/-! ## Concrete fixtures for witnesses -/

namespace Fixtures

/-- A small concrete profile. -/
def prof0 : UserProfile :=
  { firstName := "Ada", lastName := "L", email := "a@b.c", phone := "1",
    location := "Pune, MH", linkedIn := some "li", portfolio := none,
    school := "MIT", education := "bachelors", experienceLevel := "1-3",
    skills := ["python"], workAuthorized := true, requiresVisa := false,
    earliestStartDate := "2025-01-01", salaryExpectation := some "85000",
    referralSource := "linkedin", coverLetter := "hello" }

/-- The same candidate, not work-authorized. -/
def profNoAuth : UserProfile := { prof0 with workAuthorized := false }

/-- Fresh world: clock at 0, empty trace, wizard on step 1. -/
def w0 : World := { now := 0, rngIdx := 0, trace := [], acmeActiveStep := 1 }

/-- A page on which every wait succeeds. -/
def envTrue : PageEnv :=
  { rand := fun _ => 0, checkboxChecked := fun _ => false,
    schoolDropdownAppears := true, schoolDropdownCount := 1,
    stepBecomesActive := fun _ => true, visaGroupAppears := true,
    referralOtherAppears := true, confirmationAppears := true,
    confirmationText := some " CONF-12345 ", sectionOpen := fun _ => false,
    spinnerAppears := true, schoolResultsAppear := true,
    schoolResultTexts := ["MIT"], workAuthValue := false, visaValue := false,
    visaBlockAppears := true, sourceOtherAppears := true, refAppears := true,
    refText := some "GLX-777", chipSelected := fun _ => false }

/-- A frozen page: no awaited condition ever becomes true. -/
def envFalse : PageEnv :=
  { rand := fun _ => 0, checkboxChecked := fun _ => false,
    schoolDropdownAppears := false, schoolDropdownCount := 0,
    stepBecomesActive := fun _ => false, visaGroupAppears := false,
    referralOtherAppears := false, confirmationAppears := false,
    confirmationText := none, sectionOpen := fun _ => false,
    spinnerAppears := false, schoolResultsAppear := false,
    schoolResultTexts := [], workAuthValue := false, visaValue := false,
    visaBlockAppears := false, sourceOtherAppears := false, refAppears := false,
    refText := none, chipSelected := fun _ => false }

/-- A page whose confirmation elements appear but carry only whitespace. -/
def envBlankConf : PageEnv :=
  { envTrue with confirmationText := some "   ", refText := some " " }

/-- A URL/title pair both detection predicates accept. -/
def pBoth : PageInfo := { url := "https://jobs/acme.html", title := "Globex Careers" }

end Fixtures

/-! ## C5 — registry first-match resolution -/

/-- C5: `findHandler` evaluates the detection predicates in registration
order (Acme first, then Globex) and returns the first handler whose
predicate is true; it returns the explicit no-handler outcome `none` when
neither matches.  In particular, when both predicates hold the
first-registered handler (Acme) is returned. -/
theorem findHandler_first_match (p : PageInfo) :
    (handlerCanHandle .acme p = true → findHandler p = some .acme) ∧
    (handlerCanHandle .acme p = false → handlerCanHandle .globex p = true →
      findHandler p = some .globex) ∧
    (handlerCanHandle .acme p = false → handlerCanHandle .globex p = false →
      findHandler p = none) := by
  refine ⟨fun h => ?_, fun h1 h2 => ?_, fun h1 h2 => ?_⟩ <;>
    simp_all [findHandler, registryHandlers, List.find?]

/-- Witness for C5 at a page both handlers would claim: Acme wins. -/
theorem findHandler_first_match_witness :
    handlerCanHandle .acme Fixtures.pBoth = true ∧
    handlerCanHandle .globex Fixtures.pBoth = true ∧
    findHandler Fixtures.pBoth = some .acme :=
  ⟨by decide, by decide, (findHandler_first_match Fixtures.pBoth).1 (by decide)⟩

/-! ## C1 — every error caught at the fill-and-submit boundary -/

/-- C1: for every profile and page state, both `fillAndSubmit` operations
are total functions into `ApplicationResult` (they never propagate a
thrown error to the caller — the `try`/`catch` shape of the definition),
and whenever the fill-and-submit sequence inside the `try` throws `e` at
time `w₁.now`, the returned result is exactly the failure record with
`success = false`, `error = e`'s message and `durationMs` the time elapsed
since the operation started. -/
theorem fillAndSubmit_catches_all (env : PageEnv) (profile : UserProfile)
    (w w₁ : World) (e : String) :
    (AcmeHandler.tryBody env profile w = .err e w₁ →
      AcmeHandler.fillAndSubmit env profile w =
        ({ success := false, confirmationId := none, error := some e,
           screenshotPath := none, durationMs := w₁.now - w.now }, w₁)) ∧
    (GlobexHandler.tryBody env profile w = .err e w₁ →
      GlobexHandler.fillAndSubmit env profile w =
        ({ success := false, confirmationId := none, error := some e,
           screenshotPath := none, durationMs := w₁.now - w.now }, w₁)) := by
  constructor <;> intro h
  · simp [AcmeHandler.fillAndSubmit, h]
  · simp [GlobexHandler.fillAndSubmit, h]

/-- Witness for C1: on a frozen page both handlers' bodies throw, and both
results are the converted failure records. -/
theorem fillAndSubmit_catches_all_witness :
    ∃ ea wa eg wg,
      AcmeHandler.tryBody Fixtures.envFalse Fixtures.prof0 Fixtures.w0 = .err ea wa ∧
      AcmeHandler.fillAndSubmit Fixtures.envFalse Fixtures.prof0 Fixtures.w0 =
        ({ success := false, confirmationId := none, error := some ea,
           screenshotPath := none, durationMs := wa.now - Fixtures.w0.now }, wa) ∧
      GlobexHandler.tryBody Fixtures.envFalse Fixtures.prof0 Fixtures.w0 = .err eg wg ∧
      GlobexHandler.fillAndSubmit Fixtures.envFalse Fixtures.prof0 Fixtures.w0 =
        ({ success := false, confirmationId := none, error := some eg,
           screenshotPath := none, durationMs := wg.now - Fixtures.w0.now }, wg) := by
  refine ⟨_, _, _, _, rfl, ?_, rfl, ?_⟩
  · exact (fillAndSubmit_catches_all Fixtures.envFalse Fixtures.prof0
      Fixtures.w0 _ _).1 rfl
  · exact (fillAndSubmit_catches_all Fixtures.envFalse Fixtures.prof0
      Fixtures.w0 _ _).2 rfl

/-! ## C10 — empty confirmation text is success with absent id -/

/-- C10: when the fill flow completes and the confirmation element appears
within its bounded wait but its trimmed text is empty, both handlers still
return `success = true` with `confirmationId` absent (`none`, never the
empty string) and no error — an empty confirmation text is never turned
into a failure. -/
theorem confirmation_empty_text_still_success (env : PageEnv)
    (profile : UserProfile) (w : World) {wa wg : World} {sa sg : String} :
    AcmeHandler.fillFlow env profile w = .ok () wa →
    env.confirmationAppears = true →
    env.confirmationText = some sa → jsTrim sa = "" →
    GlobexHandler.fillFlow env profile w = .ok () wg →
    env.refAppears = true →
    env.refText = some sg → jsTrim sg = "" →
    (AcmeHandler.fillAndSubmit env profile w).1.success = true ∧
    (AcmeHandler.fillAndSubmit env profile w).1.confirmationId = none ∧
    (AcmeHandler.fillAndSubmit env profile w).1.error = none ∧
    (GlobexHandler.fillAndSubmit env profile w).1.success = true ∧
    (GlobexHandler.fillAndSubmit env profile w).1.confirmationId = none ∧
    (GlobexHandler.fillAndSubmit env profile w).1.error = none := by
  intro ha hca hta hea hg hcg htg heg
  obtain ⟨na, ra, tra, ka⟩ := wa
  obtain ⟨ng, rg, trg, kg⟩ := wg
  have htrya : AcmeHandler.tryBody env profile w =
      .ok env.confirmationText (.mk na ra (tra ++ [.waitSel "#confirmation-id"]) ka) := by
    unfold AcmeHandler.tryBody
    rw [M.run_bind_ok ha]
    simp [waitSelectorHard, hca, M.bind_def, M.bind, emitE, instMonadM, M.pure]
  have htryg : GlobexHandler.tryBody env profile w =
      .ok env.refText (.mk ng rg (trg ++ [.waitSel "#globex-ref"]) kg) := by
    unfold GlobexHandler.tryBody
    rw [M.run_bind_ok hg]
    simp [waitSelectorHard, hcg, M.bind_def, M.bind, emitE, instMonadM, M.pure]
  refine ⟨?_, ?_, ?_, ?_, ?_, ?_⟩ <;>
    simp [AcmeHandler.fillAndSubmit, GlobexHandler.fillAndSubmit, htrya, htryg,
      trimOrNone, hta, hea, htg, heg]

/-- Witness for C10: on a page whose confirmation elements show only
whitespace, both handlers report success with no confirmation id. -/
theorem confirmation_empty_text_still_success_witness :
    (AcmeHandler.fillAndSubmit Fixtures.envBlankConf Fixtures.prof0 Fixtures.w0).1.success = true ∧
    (AcmeHandler.fillAndSubmit Fixtures.envBlankConf Fixtures.prof0 Fixtures.w0).1.confirmationId = none ∧
    (AcmeHandler.fillAndSubmit Fixtures.envBlankConf Fixtures.prof0 Fixtures.w0).1.error = none ∧
    (GlobexHandler.fillAndSubmit Fixtures.envBlankConf Fixtures.prof0 Fixtures.w0).1.success = true ∧
    (GlobexHandler.fillAndSubmit Fixtures.envBlankConf Fixtures.prof0 Fixtures.w0).1.confirmationId = none ∧
    (GlobexHandler.fillAndSubmit Fixtures.envBlankConf Fixtures.prof0 Fixtures.w0).1.error = none :=
  confirmation_empty_text_still_success Fixtures.envBlankConf Fixtures.prof0
    Fixtures.w0 rfl rfl rfl (by decide) rfl rfl rfl (by decide)

/-! ## Error propagation: operations that definitely throw -/

/-- `Errs m e`: from every world, `m` throws exactly the error `e`. -/
def Errs {α : Type} (m : M α) (e : String) : Prop :=
  ∀ w, ∃ w₁, m w = .err e w₁

theorem errs_bind_left {α β : Type} {m : M α} {f : α → M β} {e : String}
    (hm : Errs m e) : Errs (m >>= f) e := by
  intro w
  obtain ⟨w₁, h⟩ := hm w
  exact ⟨w₁, by rw [M.run_bind_err h]⟩

theorem errs_bind_right {α β : Type} {m : M α} {f : α → M β} {e : String}
    (hm : TotP m) (hf : ∀ a, Errs (f a) e) : Errs (m >>= f) e := by
  intro w
  obtain ⟨a, w₁, h1, _⟩ := hm w
  obtain ⟨w₂, h2⟩ := hf a w₁
  exact ⟨w₂, by rw [M.run_bind_ok h1, h2]⟩

theorem errs_waitSelectorHard (sel : String) (t : Nat) :
    Errs (waitSelectorHard false sel t) (waitSelTimeoutMsg sel t) := by
  intro w
  obtain ⟨n, r, tr, k⟩ := w
  exact ⟨.mk (n + t) r (tr ++ [.waitSel sel]) k,
    by simp [waitSelectorHard, M.bind_def, M.bind, emitE, passTime, throwM]⟩

theorem errs_waitFunctionHard (desc : String) (t : Nat) :
    Errs (waitFunctionHard false desc t) (waitFnTimeoutMsg t) := by
  intro w
  obtain ⟨n, r, tr, k⟩ := w
  exact ⟨.mk (n + t) r (tr ++ [.waitFn desc]) k,
    by simp [waitFunctionHard, M.bind_def, M.bind, emitE, passTime, throwM]⟩

/-! ## Totality of the Globex steps before the async typeahead -/

theorem totP_selectOptionByText (env : PageEnv) (sel q : String)
    (options : List String) : TotP (selectOptionByText env sel q options) := by
  unfold selectOptionByText
  refine totP_bind (totP_emitE _) (fun _ =>
    totP_bind (totP_randomDelay env 100 200) (fun _ =>
      totP_bind (totP_hoverAndClick env sel) (fun _ =>
        totP_bind (totP_randomDelay env 100 200) (fun _ =>
          totP_bind ?_ (fun _ => totP_randomDelay env 100 200)))))
  cases fuzzyFind q options with
  | some m => exact totP_emitE _
  | none => exact totP_emitE _

theorem totP_expandSection (env : PageEnv) (name : String) :
    TotP (GlobexHandler.expandSection env name) := by
  unfold GlobexHandler.expandSection
  exact totP_bind (totP_smoothScrollTo env _) (fun _ =>
    totP_bind (totP_randomDelay env 200 400) (fun _ =>
      totP_ite (totP_pure ())
        (totP_bind (totP_hoverAndClick env _) (fun _ => totP_randomDelay env 300 500))))

theorem totP_fillContactDetails (env : PageEnv) (p : UserProfile) :
    TotP (GlobexHandler.fillContactDetails env p) := by
  unfold GlobexHandler.fillContactDetails
  refine totP_bind (totP_fillTextInput env _ _ _) (fun _ =>
    totP_bind (totP_fillTextInput env _ _ _) (fun _ =>
      totP_bind (totP_fillTextInput env _ _ _) (fun _ =>
        totP_bind (totP_fillTextInput env _ _ _) (fun _ =>
          totP_bind (totP_fillTextInput env _ _ _) (fun _ =>
            totP_bind ?_ (fun _ => ?_))))))
  · cases p.linkedIn with
    | none => exact totP_pure ()
    | some s => exact totP_ite (totP_pure ()) (totP_fillTextInput env _ _ _)
  · cases p.portfolio with
    | none => exact totP_pure ()
    | some s => exact totP_ite (totP_pure ()) (totP_fillTextInput env _ _ _)

/-! ## C3 — async typeahead hard timeout is a reported failure -/

/-- When the result container never opens with an item, the async
typeahead throws the hard wait's timeout error. -/
theorem errs_fillAsyncTypeahead (env : PageEnv) (s : String)
    (h : env.schoolResultsAppear = false) :
    Errs (GlobexHandler.fillAsyncTypeahead env s) (waitFnTimeoutMsg 5000) := by
  unfold GlobexHandler.fillAsyncTypeahead
  refine errs_bind_right (totP_emitE _) (fun _ => ?_)
  refine errs_bind_right (totP_randomDelay env 100 200) (fun _ => ?_)
  refine errs_bind_right (totP_emitE _) (fun _ => ?_)
  refine errs_bind_right (totP_randomDelay env 100 200) (fun _ => ?_)
  refine errs_bind_right (totP_fillTextInput env _ _ _) (fun _ => ?_)
  refine errs_bind_right (totP_waitSelectorSoft _ _ _) (fun _ => ?_)
  refine errs_bind_left ?_
  rw [h]
  exact errs_waitFunctionHard _ _

/-- The timeout propagates out of `fillQualifications`. -/
theorem errs_fillQualifications (env : PageEnv) (p : UserProfile)
    (h : env.schoolResultsAppear = false) :
    Errs (GlobexHandler.fillQualifications env p) (waitFnTimeoutMsg 5000) := by
  unfold GlobexHandler.fillQualifications
  exact errs_bind_right (totP_uploadFile env _ _) (fun _ =>
    errs_bind_right (totP_selectOption env _ _) (fun _ =>
      errs_bind_right (totP_selectOption env _ _) (fun _ =>
        errs_bind_left (errs_fillAsyncTypeahead env _ h))))

/-- The timeout propagates out of the whole Globex fill flow and body. -/
theorem errs_globex_tryBody (env : PageEnv) (p : UserProfile)
    (h : env.schoolResultsAppear = false) :
    Errs (GlobexHandler.tryBody env p) (waitFnTimeoutMsg 5000) := by
  unfold GlobexHandler.tryBody GlobexHandler.fillFlow
  refine errs_bind_left ?_
  exact errs_bind_right (totP_expandSection env _) (fun _ =>
    errs_bind_right (totP_fillContactDetails env p) (fun _ =>
      errs_bind_right (totP_readingPause env 300 600) (fun _ =>
        errs_bind_right (totP_expandSection env _) (fun _ =>
          errs_bind_left (errs_fillQualifications env p h)))))

/-- C3: if the Globex typeahead result container never both carries the
"open" marker and holds a non-empty item before the hard timeout, the
whole fill-and-submit operation reports a timeout failure for the target
(success = false with the timeout's error message) — the field is not
silently skipped. -/
theorem globex_typeahead_timeout_fails (env : PageEnv) (profile : UserProfile)
    (w : World) (h : env.schoolResultsAppear = false) :
    (GlobexHandler.fillAndSubmit env profile w).1.success = false ∧
    (GlobexHandler.fillAndSubmit env profile w).1.error =
      some (waitFnTimeoutMsg 5000) := by
  obtain ⟨w₁, hw⟩ := errs_globex_tryBody env profile h w
  constructor <;> simp [GlobexHandler.fillAndSubmit, hw]

/-- Witness for C3 on the frozen page. -/
theorem globex_typeahead_timeout_fails_witness :
    Fixtures.envFalse.schoolResultsAppear = false ∧
    (GlobexHandler.fillAndSubmit Fixtures.envFalse Fixtures.prof0 Fixtures.w0).1.success = false ∧
    (GlobexHandler.fillAndSubmit Fixtures.envFalse Fixtures.prof0 Fixtures.w0).1.error =
      some (waitFnTimeoutMsg 5000) :=
  ⟨rfl, globex_typeahead_timeout_fails Fixtures.envFalse Fixtures.prof0 Fixtures.w0 rfl⟩

/-! ## Step preservation (operations other than clickNext never change the
observed active step, even when they throw) -/

def PreservesStep {α : Type} (m : M α) : Prop :=
  ∀ w, ((m w).world).acmeActiveStep = w.acmeActiveStep

theorem totP_preserves {α : Type} {m : M α} (h : TotP m) : PreservesStep m := by
  intro w
  obtain ⟨a, w₁, hr, hs⟩ := h w
  rw [hr]
  exact hs

theorem preserves_bind {α β : Type} {m : M α} {f : α → M β}
    (hm : PreservesStep m) (hf : ∀ a, PreservesStep (f a)) :
    PreservesStep (m >>= f) := by
  intro w
  cases hr : m w with
  | ok a w₁ =>
    rw [M.run_bind_ok hr, hf a w₁]
    have := hm w
    rwa [hr] at this
  | err e w₁ =>
    rw [M.run_bind_err hr]
    have := hm w
    rwa [hr] at this

theorem preserves_ite {α : Type} {c : Prop} [Decidable c] {m₁ m₂ : M α}
    (h₁ : PreservesStep m₁) (h₂ : PreservesStep m₂) :
    PreservesStep (if c then m₁ else m₂) := by
  split <;> assumption

theorem preserves_throwM {α : Type} (e : String) :
    PreservesStep (throwM e : M α) := fun _w => rfl

theorem preserves_waitSelectorHard (appears : Bool) (sel : String) (t : Nat) :
    PreservesStep (waitSelectorHard appears sel t) := by
  unfold waitSelectorHard
  exact preserves_bind (totP_preserves (totP_emitE _)) (fun _ =>
    preserves_ite (totP_preserves (totP_pure ()))
      (preserves_bind (totP_preserves (totP_passTime t)) (fun _ => preserves_throwM _)))

theorem preserves_acme_selectReferralSource (env : PageEnv) (source : String) :
    PreservesStep (AcmeHandler.selectReferralSource env source) := by
  unfold AcmeHandler.selectReferralSource
  exact preserves_bind (totP_preserves (totP_selectOption env _ _)) (fun _ =>
    preserves_ite
      (preserves_bind (preserves_waitSelectorHard _ _ _) (fun _ =>
        preserves_bind (totP_preserves (totP_randomDelay env 200 400)) (fun _ =>
          totP_preserves (totP_fillTextInput env _ _ _))))
      (totP_preserves (totP_pure ())))

theorem preserves_fillStep3 (env : PageEnv) (p : UserProfile) :
    PreservesStep (AcmeHandler.fillStep3 env p) := by
  unfold AcmeHandler.fillStep3
  refine preserves_bind (totP_preserves (totP_clickRadio env _)) (fun _ => ?_)
  refine preserves_bind ?_ (fun _ => ?_)
  · exact preserves_ite
      (preserves_bind (preserves_waitSelectorHard _ _ _) (fun _ =>
        preserves_bind (totP_preserves (totP_randomDelay env 200 400)) (fun _ =>
          totP_preserves (totP_clickRadio env _))))
      (totP_preserves (totP_pure ()))
  refine preserves_bind (totP_preserves (totP_fillDateInput env _ _)) (fun _ => ?_)
  refine preserves_bind ?_ (fun _ => ?_)
  · cases p.salaryExpectation with
    | none => exact totP_preserves (totP_pure ())
    | some s =>
      exact preserves_ite (totP_preserves (totP_pure ()))
        (totP_preserves (totP_fillTextInput env _ _ _))
  exact preserves_bind (preserves_acme_selectReferralSource env _) (fun _ =>
    totP_preserves (totP_fillTextarea env _ _))

/-! ## Totality of the Acme steps -/

theorem totP_fillStep1 (env : PageEnv) (p : UserProfile) :
    TotP (AcmeHandler.fillStep1 env p) := by
  unfold AcmeHandler.fillStep1
  refine totP_bind (totP_fillTextInput env _ _ _) (fun _ =>
    totP_bind (totP_fillTextInput env _ _ _) (fun _ =>
      totP_bind (totP_fillTextInput env _ _ _) (fun _ =>
        totP_bind (totP_fillTextInput env _ _ _) (fun _ =>
          totP_bind (totP_fillTextInput env _ _ _) (fun _ =>
            totP_bind ?_ (fun _ => ?_))))))
  · cases p.linkedIn with
    | none => exact totP_pure ()
    | some s => exact totP_ite (totP_pure ()) (totP_fillTextInput env _ _ _)
  · cases p.portfolio with
    | none => exact totP_pure ()
    | some s => exact totP_ite (totP_pure ()) (totP_fillTextInput env _ _ _)

theorem totP_selectSkillsGo (env : PageEnv) (skills : List String) :
    TotP (AcmeHandler.selectSkillsGo env skills) := by
  induction skills with
  | nil => exact totP_pure ()
  | cons skill rest ih =>
    unfold AcmeHandler.selectSkillsGo
    refine totP_bind ?_ (fun _ => ih)
    cases lookupStr AcmeHandler.skillMap (jsTrim (jsToLower skill)) with
    | none => exact totP_pure ()
    | some v => exact totP_checkCheckbox env _

theorem totP_fillSchoolTypeahead (env : PageEnv) (s : String) :
    TotP (AcmeHandler.fillSchoolTypeahead env s) := by
  unfold AcmeHandler.fillSchoolTypeahead
  exact totP_bind (totP_emitE _) (fun _ =>
    totP_bind (totP_randomDelay env 100 200) (fun _ =>
      totP_bind (totP_emitE _) (fun _ =>
        totP_bind (totP_randomDelay env 100 200) (fun _ =>
          totP_bind (totP_fillTextInput env _ _ _) (fun _ =>
            totP_bind (totP_waitSelectorSoft _ _ _) (fun _ =>
              totP_bind (totP_randomDelay env 300 500) (fun _ =>
                totP_bind
                  (totP_ite (totP_hoverAndClick env _) (totP_emitE _))
                  (fun _ => totP_randomDelay env 200 400))))))))

theorem totP_fillStep2 (env : PageEnv) (p : UserProfile) :
    TotP (AcmeHandler.fillStep2 env p) := by
  unfold AcmeHandler.fillStep2
  exact totP_bind (totP_uploadFile env _ _) (fun _ =>
    totP_bind (totP_selectOption env _ _) (fun _ =>
      totP_bind (totP_selectOption env _ _) (fun _ =>
        totP_bind (totP_fillSchoolTypeahead env _) (fun _ =>
          totP_selectSkillsGo env _))))

theorem totP_fillStep4 (env : PageEnv) : TotP (AcmeHandler.fillStep4 env) :=
  totP_checkCheckbox env _

theorem totP_acme_submitForm (env : PageEnv) :
    TotP (AcmeHandler.submitForm env) := by
  unfold AcmeHandler.submitForm
  exact totP_bind (totP_smoothScrollTo env _) (fun _ =>
    totP_bind (totP_randomDelay env 500 1000) (fun _ =>
      totP_bind (totP_emitE _) (fun _ => totP_randomDelay env 1000 2000)))

/-! ## clickNext run characterization -/

/-- When the next step's active marker appears within the hard wait,
`clickNext` returns normally and the observed active step becomes the next
index. -/
theorem clickNext_ok (env : PageEnv) (w : World)
    (h : env.stepBecomesActive (jsParseIntNat (toString w.acmeActiveStep) + 1) = true) :
    AcmeHandler.clickNext env w = .ok () ((AcmeHandler.clickNext env w).world) ∧
    ((AcmeHandler.clickNext env w).world).acmeActiveStep =
      jsParseIntNat (toString w.acmeActiveStep) + 1 := by
  obtain ⟨n, r, tr, k⟩ := w
  simp only [World.acmeActiveStep] at h
  constructor <;>
    simp [AcmeHandler.clickNext, getActiveStep, smoothScrollTo, randomDelay,
      nextRand, passTime, emitE, waitSelectorHard, setActiveStep, M.bind_def,
      M.bind, instMonadM, M.pure, Res.world, h]

/-- When the next step's active marker never appears (frozen DOM), the
hard wait expires and `clickNext` throws the timeout. -/
theorem clickNext_err (env : PageEnv) (w : World)
    (h : env.stepBecomesActive (jsParseIntNat (toString w.acmeActiveStep) + 1) = false) :
    AcmeHandler.clickNext env w =
      .err (waitSelTimeoutMsg
        (AcmeHandler.stepSel (jsParseIntNat (toString w.acmeActiveStep) + 1)) 3000)
        ((AcmeHandler.clickNext env w).world) := by
  obtain ⟨n, r, tr, k⟩ := w
  simp only [World.acmeActiveStep] at h
  simp [AcmeHandler.clickNext, getActiveStep, smoothScrollTo, randomDelay,
    nextRand, passTime, emitE, waitSelectorHard, setActiveStep, throwM,
    M.bind_def, M.bind, instMonadM, M.pure, Res.world, h]

theorem M.bind_assoc {α β γ : Type} (m : M α) (f : α → M β) (g : β → M γ) :
    (m >>= f) >>= g = m >>= fun a => f a >>= g := by
  funext w
  simp only [M.bind_def, M.bind]
  cases m w <;> rfl

/-! ## C4 — no false success without observed step markers -/

/-- C4: starting from step 1, the Acme `fillAndSubmit` never reports
success unless every step-advancement marker (step 2, 3 and 4 becoming
active) was observed within the hard wait; a frozen DOM at any advancement
makes the result a failure, never a false success. -/
theorem acme_success_requires_step_markers (env : PageEnv) (p : UserProfile)
    (w : World) (hw : w.acmeActiveStep = 1)
    (hsucc : (AcmeHandler.fillAndSubmit env p w).1.success = true) :
    env.stepBecomesActive 2 = true ∧ env.stepBecomesActive 3 = true ∧
    env.stepBecomesActive 4 = true := by
  have htr : ∃ c wend, AcmeHandler.tryBody env p w = .ok c wend := by
    cases h : AcmeHandler.tryBody env p w with
    | ok c wend => exact ⟨c, wend, rfl⟩
    | err e wend => simp [AcmeHandler.fillAndSubmit, h] at hsucc
  obtain ⟨conf, wend, htr⟩ := htr
  unfold AcmeHandler.tryBody AcmeHandler.fillFlow at htr
  simp only [M.bind_assoc] at htr
  obtain ⟨a1, w1, h1, hs1⟩ := totP_fillStep1 env p w
  rw [M.run_bind_ok h1] at htr
  have hstep1 : w1.acmeActiveStep = 1 := by rw [hs1, hw]
  have e2 : jsParseIntNat (toString (1 : Nat)) + 1 = 2 := by decide
  cases hA2 : env.stepBecomesActive 2 with
  | false =>
    have hc := clickNext_err env w1 (by rw [hstep1, e2]; exact hA2)
    rw [M.run_bind_err hc] at htr
    simp at htr
  | true =>
    obtain ⟨hc1, hcs1⟩ := clickNext_ok env w1 (by rw [hstep1, e2]; exact hA2)
    rw [M.run_bind_ok hc1] at htr
    rw [hstep1, e2] at hcs1
    obtain ⟨a2, w3, h2, hs2⟩ :=
      totP_readingPause env 500 1000 ((AcmeHandler.clickNext env w1).world)
    rw [M.run_bind_ok h2] at htr
    obtain ⟨a3, w4, h3, hs3⟩ := totP_fillStep2 env p w3
    rw [M.run_bind_ok h3] at htr
    have hstep4 : w4.acmeActiveStep = 2 := by rw [hs3, hs2]; exact hcs1
    have e3 : jsParseIntNat (toString (2 : Nat)) + 1 = 3 := by decide
    cases hA3 : env.stepBecomesActive 3 with
    | false =>
      have hc := clickNext_err env w4 (by rw [hstep4, e3]; exact hA3)
      rw [M.run_bind_err hc] at htr
      simp at htr
    | true =>
      obtain ⟨hc2, hcs2⟩ := clickNext_ok env w4 (by rw [hstep4, e3]; exact hA3)
      rw [M.run_bind_ok hc2] at htr
      rw [hstep4, e3] at hcs2
      obtain ⟨a4, w5, h4, hs4⟩ :=
        totP_readingPause env 500 1000 ((AcmeHandler.clickNext env w4).world)
      rw [M.run_bind_ok h4] at htr
      cases h5 : AcmeHandler.fillStep3 env p w5 with
      | err e5 w6 =>
        rw [M.run_bind_err h5] at htr
        simp at htr
      | ok a5 w6 =>
        rw [M.run_bind_ok h5] at htr
        have hstep6 : w6.acmeActiveStep = 3 := by
          have hp := preserves_fillStep3 env p w5
          rw [h5] at hp
          simp only [Res.world] at hp
          rw [hp, hs4]
          exact hcs2
        have e4 : jsParseIntNat (toString (3 : Nat)) + 1 = 4 := by decide
        cases hA4 : env.stepBecomesActive 4 with
        | false =>
          have hc := clickNext_err env w6 (by rw [hstep6, e4]; exact hA4)
          rw [M.run_bind_err hc] at htr
          simp at htr
        | true => exact ⟨rfl, rfl, rfl⟩

/-- Witness for C4: on the all-good page the wizard run is a success and
all three markers were indeed observed. -/
theorem acme_success_requires_step_markers_witness :
    Fixtures.w0.acmeActiveStep = 1 ∧
    (AcmeHandler.fillAndSubmit Fixtures.envTrue Fixtures.prof0 Fixtures.w0).1.success = true ∧
    (Fixtures.envTrue.stepBecomesActive 2 = true ∧
     Fixtures.envTrue.stepBecomesActive 3 = true ∧
     Fixtures.envTrue.stepBecomesActive 4 = true) :=
  ⟨rfl, rfl,
    acme_success_requires_step_markers Fixtures.envTrue Fixtures.prof0
      Fixtures.w0 rfl rfl⟩

/-! ## C2 — async typeahead selection rule -/

/-- Formalized from the claim's words (no non-emptiness guard): the first
item in delivered order whose text contains the typed query as a
case-insensitive substring, the first item when none does. -/
def typeaheadClaimIdx (texts : List String) (query : String) : Option Nat :=
  match typeaheadClaimIdxGo query texts 0 with
  | some i => some i
  | none => if texts.length > 0 then some 0 else none
where
  typeaheadClaimIdxGo (query : String) : List String → Nat → Option Nat
    | [], _ => none
    | t :: rest, i =>
      if jsIncludes (jsToLower t) (jsToLower query) then some i
      else typeaheadClaimIdxGo query rest (i + 1)

/-- Scan returns the first matching index (go-function form, counter
shifted by `k`). -/
theorem typeaheadMatchIdxGo_first (q : String) :
    ∀ (texts : List String) (k i : Nat) (hi : i < texts.length),
      GlobexHandler.typeaheadItemMatches q texts[i] = true →
      (∀ j (hj : j < texts.length), j < i →
        GlobexHandler.typeaheadItemMatches q texts[j] = false) →
      GlobexHandler.typeaheadMatchIdxGo q texts k = some (k + i) := by
  intro texts
  induction texts with
  | nil =>
    intro k i hi
    simp at hi
  | cons t rest ih =>
    intro k i hi hm hnone
    cases i with
    | zero =>
      simp only [List.getElem_cons_zero] at hm
      simp [GlobexHandler.typeaheadMatchIdxGo, hm]
    | succ i =>
      have h0 : GlobexHandler.typeaheadItemMatches q t = false := by
        have := hnone 0 (by omega) (by omega)
        simpa using this
      have hrest := ih (k + 1) i (by simpa using hi)
        (by simpa using hm)
        (fun j hj hji => by
          have := hnone (j + 1) (by omega) (by omega)
          simpa using this)
      simp only [GlobexHandler.typeaheadMatchIdxGo, h0]
      rw [if_neg (by simp [h0]), hrest]
      congr 1
      omega

/-- Scan returns `none` when no item matches. -/
theorem typeaheadMatchIdxGo_none (q : String) :
    ∀ (texts : List String) (k : Nat),
      (∀ t ∈ texts, GlobexHandler.typeaheadItemMatches q t = false) →
      GlobexHandler.typeaheadMatchIdxGo q texts k = none := by
  intro texts
  induction texts with
  | nil => intro k _; rfl
  | cons t rest ih =>
    intro k h
    have h0 : GlobexHandler.typeaheadItemMatches q t = false := h t (by simp)
    simp only [GlobexHandler.typeaheadMatchIdxGo]
    rw [if_neg (by simp [h0])]
    exact ih (k + 1) (fun x hx => h x (by simp [hx]))

/-- C2 (amended): the engine selects the first item in delivered order
whose text is NON-EMPTY and contains the typed query as a case-insensitive
substring; (uniqueness corollary) if exactly one item matches in that
sense, it is selected regardless of its position; and if no item matches,
the first item in delivered order is selected instead of failing. -/
theorem typeahead_selects_first_nonempty_match (texts : List String) (q : String) :
    (∀ i (hi : i < texts.length),
      GlobexHandler.typeaheadItemMatches q texts[i] = true →
      (∀ j (hj : j < texts.length), j < i →
        GlobexHandler.typeaheadItemMatches q texts[j] = false) →
      GlobexHandler.typeaheadSelIdx texts q = some i) ∧
    (∀ i (hi : i < texts.length),
      GlobexHandler.typeaheadItemMatches q texts[i] = true →
      (∀ j (hj : j < texts.length), j ≠ i →
        GlobexHandler.typeaheadItemMatches q texts[j] = false) →
      GlobexHandler.typeaheadSelIdx texts q = some i) ∧
    ((∀ t ∈ texts, GlobexHandler.typeaheadItemMatches q t = false) →
      texts ≠ [] → GlobexHandler.typeaheadSelIdx texts q = some 0) := by
  refine ⟨?first, ?uniq, ?fallback⟩
  case first =>
    intro i hi hm hnone
    have := typeaheadMatchIdxGo_first q texts 0 i hi hm hnone
    simp [GlobexHandler.typeaheadSelIdx, GlobexHandler.typeaheadMatchIdx, this]
  case uniq =>
    intro i hi hm huniq
    have := typeaheadMatchIdxGo_first q texts 0 i hi hm
      (fun j hj hji => huniq j hj (by omega))
    simp [GlobexHandler.typeaheadSelIdx, GlobexHandler.typeaheadMatchIdx, this]
  case fallback =>
    intro hnone hne
    have := typeaheadMatchIdxGo_none q texts 0 hnone
    have hlen : texts.length > 0 := List.length_pos.mpr hne
    simp [GlobexHandler.typeaheadSelIdx, GlobexHandler.typeaheadMatchIdx, this, hlen]

/-- A delivered list with an empty-text item followed by a matching item. -/
def envEmptyItem : PageEnv :=
  { Fixtures.envTrue with schoolResultTexts := ["", "A"] }

/-- Counterexample to C2 as stated: with typed query `""` and delivered
texts `["", "A"]`, the first item's text *does* contain the query as a
(case-insensitive) substring, so the claim demands item 0; the code's JS
truthiness guard skips the empty text and the engine clicks item 1. -/
theorem typeahead_counterexample :
    typeaheadClaimIdx ["", "A"] "" = some 0 ∧
    GlobexHandler.typeaheadSelIdx ["", "A"] "" = some 1 ∧
    Ev.click (GlobexHandler.resultItemSel 1) ∈
      ((GlobexHandler.fillAsyncTypeahead envEmptyItem "") Fixtures.w0).world.trace ∧
    Ev.click (GlobexHandler.resultItemSel 0) ∉
      ((GlobexHandler.fillAsyncTypeahead envEmptyItem "") Fixtures.w0).world.trace := by
  refine ⟨by decide, by decide, by decide, by decide⟩

/-- Witness for the amended C2: a uniquely-matching item in second
position is selected, and the engine indeed clicks it. -/
theorem typeahead_selects_first_nonempty_match_witness :
    GlobexHandler.typeaheadItemMatches "A" "ax" = true ∧
    GlobexHandler.typeaheadSelIdx ["b", "ax"] "A" = some 1 ∧
    Ev.click (GlobexHandler.resultItemSel 1) ∈
      ((GlobexHandler.fillAsyncTypeahead
        { Fixtures.envTrue with schoolResultTexts := ["b", "ax"] } "A")
        Fixtures.w0).world.trace :=
  ⟨by decide,
   (typeahead_selects_first_nonempty_match ["b", "ax"] "A").2.1 1 (by decide)
     (by decide) (fun j hj hne => by
       have hj0 : j = 0 := by simp at hj; omega
       subst hj0
       show GlobexHandler.typeaheadItemMatches "A" "b" = false
       decide),
   by decide⟩

/-! ## C7 — fuzzy option-selection resolution order -/

/-- `find?` returns the first element satisfying the predicate. -/
theorem find?_eq_some_first {α : Type} (p : α → Bool) :
    ∀ (l : List α) (i : Nat) (hi : i < l.length),
      p l[i] = true →
      (∀ j (hj : j < l.length), j < i → p l[j] = false) →
      l.find? p = some l[i] := by
  intro l
  induction l with
  | nil => intro i hi; simp at hi
  | cons x rest ih =>
    intro i hi hp hnone
    cases i with
    | zero =>
      simp only [List.getElem_cons_zero] at hp ⊢
      simp [List.find?, hp]
    | succ i =>
      have h0 : p x = false := by
        have := hnone 0 (by omega) (by omega)
        simpa using this
      simp only [List.getElem_cons_succ] at hp ⊢
      simp only [List.find?, h0]
      exact ih i (by simpa using hi) hp
        (fun j hj hji => by
          have := hnone (j + 1) (by omega) (by omega)
          simpa using this)

/-- `find?` misses when no element satisfies the predicate. -/
theorem find?_eq_none_of_all {α : Type} (p : α → Bool) :
    ∀ l : List α, (∀ x ∈ l, p x = false) → l.find? p = none := by
  intro l
  induction l with
  | nil => intro _; rfl
  | cons x rest ih =>
    intro h
    simp only [List.find?, h x (by simp)]
    exact ih (fun y hy => h y (by simp [hy]))

/-- Run of `selectOptionByText` when the fuzzy scan finds a label. -/
theorem selectOptionByText_run_label (env : PageEnv) (sel q : String)
    (opts : List String) (w : World) (m : String)
    (hf : fuzzyFind q opts = some m) :
    selectOptionByText env sel q opts w =
      .ok () ((selectOptionByText env sel q opts w).world) ∧
    ((selectOptionByText env sel q opts w).world).trace =
      w.trace ++ [.scroll sel, .hover sel, .click sel, .selectOptLabel sel m] := by
  obtain ⟨n, r, tr, k⟩ := w
  constructor <;>
    simp [selectOptionByText, hf, hoverAndClick, randomDelay, nextRand,
      passTime, emitE, M.bind_def, M.bind, instMonadM, M.pure, Res.world]

/-- Run of `selectOptionByText` when no label matches: literal fallback. -/
theorem selectOptionByText_run_fallback (env : PageEnv) (sel q : String)
    (opts : List String) (w : World)
    (hf : fuzzyFind q opts = none) :
    selectOptionByText env sel q opts w =
      .ok () ((selectOptionByText env sel q opts w).world) ∧
    ((selectOptionByText env sel q opts w).world).trace =
      w.trace ++ [.scroll sel, .hover sel, .click sel, .selectOpt sel q] := by
  obtain ⟨n, r, tr, k⟩ := w
  constructor <;>
    simp [selectOptionByText, hf, hoverAndClick, randomDelay, nextRand,
      passTime, emitE, M.bind_def, M.bind, instMonadM, M.pure, Res.world]

/-- C7 (amended): `selectOptionByText` scans the option list in order,
evaluating for each option the full disjunction — exact case-insensitive
equality with the normalized input, OR substring containment in either
direction, OR the option's first word being a substring of the input
(`fuzzyClause`) — and selects the label of the first option satisfying any
disjunct; only when no option satisfies any disjunct does it fall back to
treating the input as a literal option value. -/
theorem selectOptionByText_scan_order (env : PageEnv) (sel q : String)
    (opts : List String) (w : World) :
    (∀ i (hi : i < opts.length),
      fuzzyClause (jsTrim (jsToLower q)) opts[i] = true →
      (∀ j (hj : j < opts.length), j < i →
        fuzzyClause (jsTrim (jsToLower q)) opts[j] = false) →
      selectOptionByText env sel q opts w =
        .ok () ((selectOptionByText env sel q opts w).world) ∧
      ((selectOptionByText env sel q opts w).world).trace =
        w.trace ++ [.scroll sel, .hover sel, .click sel,
          .selectOptLabel sel opts[i]]) ∧
    ((∀ o ∈ opts, fuzzyClause (jsTrim (jsToLower q)) o = false) →
      selectOptionByText env sel q opts w =
        .ok () ((selectOptionByText env sel q opts w).world) ∧
      ((selectOptionByText env sel q opts w).world).trace =
        w.trace ++ [.scroll sel, .hover sel, .click sel, .selectOpt sel q]) := by
  constructor
  · intro i hi hp hnone
    have hf : fuzzyFind q opts = some opts[i] :=
      find?_eq_some_first _ opts i hi hp hnone
    exact selectOptionByText_run_label env sel q opts w _ hf
  · intro hnone
    have hf : fuzzyFind q opts = none := find?_eq_none_of_all _ opts hnone
    exact selectOptionByText_run_fallback env sel q opts w hf

/-- Formalized from the claim's words: staged resolution — first scan all
options for an exact case-insensitive match, then scan all options for
substring containment in either direction, and only then give up (literal
fallback). -/
def stagedResolve (searchText : String) (options : List String) : Option String :=
  let ns := jsTrim (jsToLower searchText)
  match options.find? (fun opt => jsToLower opt == ns) with
  | some m => some m
  | none =>
    options.find? (fun opt =>
      jsIncludes (jsToLower opt) ns || jsIncludes ns (jsToLower opt))

/-- Counterexample to C7 as stated: (1) with input "masters" and options
["Masters of Science", "Masters"], staged resolution picks the exact match
"Masters", but the code selects "Masters of Science" — the containment
disjunct fires on an earlier option before exact equality is ever tried on
a later one; (2) with input "masters x" and option ["Masters of Science"],
no exact or containment match exists, so the claim requires the literal
fallback, but the first-word heuristic (absent from the claim's stages)
selects the label. -/
theorem selectOptionByText_counterexample :
    stagedResolve "masters" ["Masters of Science", "Masters"] = some "Masters" ∧
    Ev.selectOptLabel "#edu" "Masters of Science" ∈
      ((selectOptionByText Fixtures.envTrue "#edu" "masters"
        ["Masters of Science", "Masters"]) Fixtures.w0).world.trace ∧
    stagedResolve "masters x" ["Masters of Science"] = none ∧
    Ev.selectOptLabel "#edu" "Masters of Science" ∈
      ((selectOptionByText Fixtures.envTrue "#edu" "masters x"
        ["Masters of Science"]) Fixtures.w0).world.trace := by
  refine ⟨by decide, by decide, by decide, by decide⟩

/-- Witness for the amended C7: "masters" against
["Masters of Science", "Masters"] selects the first option satisfying the
disjunction ("Masters of Science"), and the fallback fires for an input
matching nothing. -/
theorem selectOptionByText_scan_order_witness :
    (((selectOptionByText Fixtures.envTrue "#edu" "masters"
        ["Masters of Science", "Masters"]) Fixtures.w0).world).trace =
      Fixtures.w0.trace ++ [.scroll "#edu", .hover "#edu", .click "#edu",
        .selectOptLabel "#edu" "Masters of Science"] ∧
    (((selectOptionByText Fixtures.envTrue "#edu" "zzz"
        ["Masters of Science"]) Fixtures.w0).world).trace =
      Fixtures.w0.trace ++ [.scroll "#edu", .hover "#edu", .click "#edu",
        .selectOpt "#edu" "zzz"] :=
  ⟨((selectOptionByText_scan_order Fixtures.envTrue "#edu" "masters"
      ["Masters of Science", "Masters"] Fixtures.w0).1 0 (by decide)
      (by decide) (fun j hj hji => by omega)).2,
   ((selectOptionByText_scan_order Fixtures.envTrue "#edu" "zzz"
      ["Masters of Science"] Fixtures.w0).2 (by decide)).2⟩

/-! ## C9 — unmapped referral sources default to "linkedin" -/

/-- The six referral keys both handler maps share. -/
def referralKeys : List String :=
  ["linkedin", "company-website", "job-board", "referral", "university", "other"]

theorem lookup_acme_sourceMap_none {k : String} (hk : k ∉ referralKeys) :
    lookupStr AcmeHandler.sourceMap k = none := by
  simp [referralKeys] at hk
  obtain ⟨h1, h2, h3, h4, h5, h6⟩ := hk
  simp [lookupStr, AcmeHandler.sourceMap, List.find?,
    beq_eq_false_iff_ne.mpr (Ne.symm h1), beq_eq_false_iff_ne.mpr (Ne.symm h2),
    beq_eq_false_iff_ne.mpr (Ne.symm h3), beq_eq_false_iff_ne.mpr (Ne.symm h4),
    beq_eq_false_iff_ne.mpr (Ne.symm h5), beq_eq_false_iff_ne.mpr (Ne.symm h6)]

theorem lookup_globex_sourceMap_none {k : String} (hk : k ∉ referralKeys) :
    lookupStr GlobexHandler.sourceMap k = none := by
  simp [referralKeys] at hk
  obtain ⟨h1, h2, h3, h4, h5, h6⟩ := hk
  simp [lookupStr, GlobexHandler.sourceMap, List.find?,
    beq_eq_false_iff_ne.mpr (Ne.symm h1), beq_eq_false_iff_ne.mpr (Ne.symm h2),
    beq_eq_false_iff_ne.mpr (Ne.symm h3), beq_eq_false_iff_ne.mpr (Ne.symm h4),
    beq_eq_false_iff_ne.mpr (Ne.symm h5), beq_eq_false_iff_ne.mpr (Ne.symm h6)]

/-- C9: for every referral-source string whose lowercased trimmed form is
not one of the six mapped keys, both handlers silently select the default
option "linkedin" (the operation returns normally, interacting only with
the referral select); and the free-text entry into the "other" field
occurs only when the mapped value is "other" — whenever the mapped value
differs from "other", no text is ever typed into the other-field. -/
theorem referral_unmapped_defaults_linkedin (env : PageEnv) (source : String)
    (w : World) :
    (jsTrim (jsToLower source) ∉ referralKeys →
      (AcmeHandler.selectReferralSource env source w =
        .ok () ((AcmeHandler.selectReferralSource env source w).world) ∧
       ((AcmeHandler.selectReferralSource env source w).world).trace =
        w.trace ++ [.scroll "#referral", .hover "#referral", .click "#referral",
          .selectOpt "#referral" "linkedin"]) ∧
      (GlobexHandler.selectReferralSource env source w =
        .ok () ((GlobexHandler.selectReferralSource env source w).world) ∧
       ((GlobexHandler.selectReferralSource env source w).world).trace =
        w.trace ++ [.scroll "#g-source", .hover "#g-source", .click "#g-source",
          .selectOpt "#g-source" "linkedin"])) ∧
    (jsOr (lookupStr AcmeHandler.sourceMap (jsTrim (jsToLower source))) "linkedin"
        ≠ "other" →
      ∀ e, e ∈ ((AcmeHandler.selectReferralSource env source) w).world.trace →
        e ∈ w.trace ∨ ∀ t, e ≠ .typeText "#referral-other" t) ∧
    (jsOr (lookupStr GlobexHandler.sourceMap (jsTrim (jsToLower source))) "linkedin"
        ≠ "other" →
      ∀ e, e ∈ ((GlobexHandler.selectReferralSource env source) w).world.trace →
        e ∈ w.trace ∨ ∀ t, e ≠ .typeText "#g-source-other" t) := by
  refine ⟨fun hk => ?_, fun hne => ?_, fun hne => ?_⟩
  · have ha := lookup_acme_sourceMap_none hk
    have hg := lookup_globex_sourceMap_none hk
    obtain ⟨n, r, tr, k⟩ := w
    refine ⟨⟨?_, ?_⟩, ⟨?_, ?_⟩⟩ <;>
      simp [AcmeHandler.selectReferralSource, GlobexHandler.selectReferralSource,
        ha, hg, jsOr, selectOption, hoverAndClick, randomDelay, nextRand,
        passTime, emitE, M.bind_def, M.bind, instMonadM, M.pure, Res.world]
  · have hemits : EmitsOnly (fun e => ∀ t, e ≠ .typeText "#referral-other" t)
        (AcmeHandler.selectReferralSource env source) := by
      unfold AcmeHandler.selectReferralSource
      refine emits_bind (emits_selectOption (by simp) (by simp) (by simp) (by simp))
        (fun _ => ?_)
      rw [if_neg (by simp [hne])]
      exact emits_pure ()
    exact fun e he => hemits w e he
  · have hemits : EmitsOnly (fun e => ∀ t, e ≠ .typeText "#g-source-other" t)
        (GlobexHandler.selectReferralSource env source) := by
      unfold GlobexHandler.selectReferralSource
      refine emits_bind (emits_selectOption (by simp) (by simp) (by simp) (by simp))
        (fun _ => ?_)
      rw [if_neg (by simp [hne])]
      exact emits_pure ()
    exact fun e he => hemits w e he

/-- Witness for C9 at the unmapped source "MySpace". -/
theorem referral_unmapped_defaults_linkedin_witness :
    jsTrim (jsToLower "MySpace") ∉ referralKeys ∧
    ((AcmeHandler.selectReferralSource Fixtures.envTrue "MySpace"
        Fixtures.w0).world).trace =
      [.scroll "#referral", .hover "#referral", .click "#referral",
       .selectOpt "#referral" "linkedin"] ∧
    ((GlobexHandler.selectReferralSource Fixtures.envTrue "MySpace"
        Fixtures.w0).world).trace =
      [.scroll "#g-source", .hover "#g-source", .click "#g-source",
       .selectOpt "#g-source" "linkedin"] ∧
    (∀ e, e ∈ ((AcmeHandler.selectReferralSource Fixtures.envTrue "MySpace")
        Fixtures.w0).world.trace →
      e ∈ Fixtures.w0.trace ∨ ∀ t, e ≠ .typeText "#referral-other" t) := by
  have h := referral_unmapped_defaults_linkedin Fixtures.envTrue "MySpace" Fixtures.w0
  refine ⟨by decide, ?_, ?_, h.2.1 (by decide)⟩
  · have := (h.1 (by decide)).1.2
    simpa using this
  · have := (h.1 (by decide)).2.2
    simpa using this

/-! ## Event-emission helpers for the referral selectors -/

theorem emits_acme_selectReferralSource {P : Ev → Prop} {env : PageEnv}
    {source : String}
    (h1 : P (.scroll "#referral")) (h2 : P (.hover "#referral"))
    (h3 : P (.click "#referral")) (h4 : ∀ v, P (.selectOpt "#referral" v))
    (h5 : P (.waitSel "#referral-other-group"))
    (h6 : P (.scroll "#referral-other")) (h7 : P (.tripleClick "#referral-other"))
    (h8 : P (.click "#referral-other"))
    (h9 : ∀ t, P (.typeText "#referral-other" t)) :
    EmitsOnly P (AcmeHandler.selectReferralSource env source) := by
  unfold AcmeHandler.selectReferralSource
  refine emits_bind (emits_selectOption h1 h2 h3 (h4 _)) (fun _ => ?_)
  refine emits_ite ?_ (emits_pure ())
  refine emits_bind (emits_waitSelectorHard h5) (fun _ => ?_)
  refine emits_bind (emits_randomDelay env 200 400) (fun _ => ?_)
  exact emits_fillTextInput h6 h7 h8 (h9 _)

theorem emits_globex_selectReferralSource {P : Ev → Prop} {env : PageEnv}
    {source : String}
    (h1 : P (.scroll "#g-source")) (h2 : P (.hover "#g-source"))
    (h3 : P (.click "#g-source")) (h4 : ∀ v, P (.selectOpt "#g-source" v))
    (h5 : P (.waitSel "#g-source-other-block.visible"))
    (h6 : P (.scroll "#g-source-other")) (h7 : P (.tripleClick "#g-source-other"))
    (h8 : P (.click "#g-source-other"))
    (h9 : ∀ t, P (.typeText "#g-source-other" t)) :
    EmitsOnly P (GlobexHandler.selectReferralSource env source) := by
  unfold GlobexHandler.selectReferralSource
  refine emits_bind (emits_selectOption h1 h2 h3 (h4 _)) (fun _ => ?_)
  refine emits_ite ?_ (emits_pure ())
  refine emits_bind (emits_waitSelectorHard h5) (fun _ => ?_)
  refine emits_bind (emits_randomDelay env 200 400) (fun _ => ?_)
  exact emits_fillTextInput h6 h7 h8 (h9 _)

/-! ## C8 — checkbox/toggle idempotence -/

/-- No click on the work-authorization toggle when its state already
agrees with the profile. -/
theorem fillAdditionalInfo_no_workauth_click (env : PageEnv) (p : UserProfile)
    (h : p.workAuthorized = env.workAuthValue) :
    EmitsOnly (fun e => e ≠ .click "#g-work-auth-toggle")
      (GlobexHandler.fillAdditionalInfo env p) := by
  unfold GlobexHandler.fillAdditionalInfo
  refine emits_bind (emits_smoothScrollTo (by simp)) (fun _ => ?_)
  refine emits_bind (emits_randomDelay env 100 200) (fun _ => ?_)
  refine emits_bind ?_ (fun _ => ?_)
  · rw [if_neg (by simp [h])]
    exact emits_pure ()
  refine emits_bind ?_ (fun _ => ?_)
  · refine emits_ite ?_ (emits_pure ())
    refine emits_bind (emits_waitSelectorSoft (by simp)) (fun _ => ?_)
    refine emits_ite ?_ (emits_pure ())
    exact emits_bind (emits_hoverAndClick (by simp) (by simp))
      (fun _ => emits_randomDelay env 200 400)
  refine emits_bind (emits_fillDateInput (by simp) (by simp)) (fun _ => ?_)
  refine emits_bind ?_ (fun _ => ?_)
  · cases p.salaryExpectation with
    | none => exact emits_pure ()
    | some s =>
      refine emits_ite (emits_pure ()) ?_
      cases jsParseInt s with
      | none => exact emits_pure ()
      | some v => exact emits_setSliderValue (by simp) (by simp)
  refine emits_bind
    (emits_globex_selectReferralSource (by simp) (by simp) (by simp)
      (fun v => by simp) (by simp) (by simp) (by simp) (by simp)
      (fun t => by simp)) (fun _ => ?_)
  exact emits_fillTextarea (by simp) (by simp) (by simp) (by simp)

/-- No click on the visa toggle when its state already agrees with the
profile. -/
theorem fillAdditionalInfo_no_visa_click (env : PageEnv) (p : UserProfile)
    (h : p.requiresVisa = env.visaValue) :
    EmitsOnly (fun e => e ≠ .click "#g-visa-toggle")
      (GlobexHandler.fillAdditionalInfo env p) := by
  unfold GlobexHandler.fillAdditionalInfo
  refine emits_bind (emits_smoothScrollTo (by simp)) (fun _ => ?_)
  refine emits_bind (emits_randomDelay env 100 200) (fun _ => ?_)
  refine emits_bind ?_ (fun _ => ?_)
  · refine emits_ite ?_ (emits_pure ())
    exact emits_bind (emits_hoverAndClick (by simp) (by simp))
      (fun _ => emits_randomDelay env 300 500)
  refine emits_bind ?_ (fun _ => ?_)
  · refine emits_ite ?_ (emits_pure ())
    refine emits_bind (emits_waitSelectorSoft (by simp)) (fun _ => ?_)
    rw [if_neg (by simp [h])]
    exact emits_pure ()
  refine emits_bind (emits_fillDateInput (by simp) (by simp)) (fun _ => ?_)
  refine emits_bind ?_ (fun _ => ?_)
  · cases p.salaryExpectation with
    | none => exact emits_pure ()
    | some s =>
      refine emits_ite (emits_pure ()) ?_
      cases jsParseInt s with
      | none => exact emits_pure ()
      | some v => exact emits_setSliderValue (by simp) (by simp)
  refine emits_bind
    (emits_globex_selectReferralSource (by simp) (by simp) (by simp)
      (fun v => by simp) (by simp) (by simp) (by simp) (by simp)
      (fun t => by simp)) (fun _ => ?_)
  exact emits_fillTextarea (by simp) (by simp) (by simp) (by simp)

/-- C8: checkbox and toggle primitives are idempotent for already-correct
state.  `checkCheckbox` on an already-checked element performs only the
scroll (no click); the Globex boolean toggles read their `data-value`
state first and issue no click on the work-authorization (resp. visa)
toggle when it already agrees with the profile. -/
theorem toggles_idempotent (env : PageEnv) (p : UserProfile) (sel : String)
    (w : World) :
    (env.checkboxChecked sel = true →
      checkCheckbox env sel w = .ok () ((checkCheckbox env sel w).world) ∧
      ((checkCheckbox env sel w).world).trace = w.trace ++ [.scroll sel]) ∧
    (p.workAuthorized = env.workAuthValue →
      ∀ e, e ∈ ((GlobexHandler.fillAdditionalInfo env p) w).world.trace →
        e ∈ w.trace ∨ e ≠ .click "#g-work-auth-toggle") ∧
    (p.requiresVisa = env.visaValue →
      ∀ e, e ∈ ((GlobexHandler.fillAdditionalInfo env p) w).world.trace →
        e ∈ w.trace ∨ e ≠ .click "#g-visa-toggle") := by
  refine ⟨fun hc => ?_, fun h e he => ?_, fun h e he => ?_⟩
  · obtain ⟨n, r, tr, k⟩ := w
    constructor <;>
      simp [checkCheckbox, hc, randomDelay, nextRand, passTime, emitE,
        M.bind_def, M.bind, instMonadM, M.pure, Res.world]
  · exact fillAdditionalInfo_no_workauth_click env p h w e he
  · exact fillAdditionalInfo_no_visa_click env p h w e he

/-- A page whose checkbox is already checked and whose toggles already
agree with `prof0`. -/
def envIdem : PageEnv :=
  { Fixtures.envTrue with
    checkboxChecked := fun _ => true
    workAuthValue := true
    visaValue := false }

/-- Witness for C8. -/
theorem toggles_idempotent_witness :
    envIdem.checkboxChecked "#terms-agree" = true ∧
    ((checkCheckbox envIdem "#terms-agree" Fixtures.w0).world).trace =
      [.scroll "#terms-agree"] ∧
    (∀ e, e ∈ ((GlobexHandler.fillAdditionalInfo envIdem Fixtures.prof0)
        Fixtures.w0).world.trace →
      e ∈ Fixtures.w0.trace ∨ e ≠ .click "#g-work-auth-toggle") ∧
    (∀ e, e ∈ ((GlobexHandler.fillAdditionalInfo envIdem Fixtures.prof0)
        Fixtures.w0).world.trace →
      e ∈ Fixtures.w0.trace ∨ e ≠ .click "#g-visa-toggle") := by
  have h := toggles_idempotent envIdem Fixtures.prof0 "#terms-agree" Fixtures.w0
  refine ⟨rfl, ?_, h.2.1 rfl, h.2.2 rfl⟩
  have := (h.1 rfl).2
  simpa using this

/-! ## C6 — visa field never touched when not work-authorized -/

/-- Selectors of the visa-sponsorship fields and their governing
containers, on both platforms. -/
def visaTargets : List String :=
  ["#visa-sponsorship-group", AcmeHandler.visaSel "yes", AcmeHandler.visaSel "no",
   "#g-visa-block.visible", "#g-visa-toggle"]

/-- An event that does not target any visa selector. -/
def visaFree (e : Ev) : Prop := e.target ∉ visaTargets

instance (e : Ev) : Decidable (visaFree e) :=
  inferInstanceAs (Decidable (e.target ∉ visaTargets))

/-- Strings equal as a whole agree on any initial slice of the leftmost
append operand: used to refute equalities between computed selectors and
the visa selectors. -/
theorem take_eq_of_append2_eq (n : Nat) {a b c t : String}
    (h : (a ++ b) ++ c = t) (hn : n ≤ a.data.length) :
    a.data.take n = t.data.take n := by
  have hl : n ≤ (a ++ b).data.length := by
    rw [String.data_append, List.length_append]
    omega
  have h2 := congrArg (fun s => s.data.take n) h
  simpa [String.data_append, List.take_append_of_le_length hl,
    List.take_append_of_le_length hn] using h2

theorem stepSel_not_visa (k : Nat) : AcmeHandler.stepSel k ∉ visaTargets := by
  intro hmem
  simp [visaTargets, AcmeHandler.visaSel] at hmem
  rcases hmem with h | h | h | h | h <;>
    exact absurd (take_eq_of_append2_eq 1 h (by decide)) (by decide)

theorem skillSel_not_visa (v : String) : AcmeHandler.skillSel v ∉ visaTargets := by
  intro hmem
  simp [visaTargets, AcmeHandler.visaSel] at hmem
  rcases hmem with h | h | h | h | h <;>
    exact absurd (take_eq_of_append2_eq 14 h (by decide)) (by decide)

theorem workAuthSel_not_visa (v : String) :
    AcmeHandler.workAuthSel v ∉ visaTargets := by
  intro hmem
  simp [visaTargets, AcmeHandler.visaSel] at hmem
  rcases hmem with h | h | h | h | h <;>
    exact absurd (take_eq_of_append2_eq 14 h (by decide)) (by decide)

theorem sectionHeaderSel_not_visa (name : String) :
    GlobexHandler.sectionHeaderSel name ∉ visaTargets := by
  intro hmem
  simp [visaTargets, AcmeHandler.visaSel] at hmem
  rcases hmem with h | h | h | h | h <;>
    exact absurd (take_eq_of_append2_eq 1 h (by decide)) (by decide)

theorem chipSel_not_visa (v : String) : GlobexHandler.chipSel v ∉ visaTargets := by
  intro hmem
  simp [visaTargets, AcmeHandler.visaSel] at hmem
  rcases hmem with h | h | h | h | h <;>
    exact absurd (take_eq_of_append2_eq 5 h (by decide)) (by decide)

theorem resultItemSel_not_visa (i : Nat) :
    GlobexHandler.resultItemSel i ∉ visaTargets := by
  intro hmem
  simp [visaTargets, AcmeHandler.visaSel] at hmem
  rcases hmem with h | h | h | h | h <;>
    exact absurd (take_eq_of_append2_eq 5 h (by decide)) (by decide)

/-! Per-primitive corollaries: every event of an operation on a non-visa
selector is visa-free. -/

theorem vf_fillTextInput (env : PageEnv) {sel : String} (v : String) (b : Bool)
    (h : sel ∉ visaTargets) : EmitsOnly visaFree (fillTextInput env sel v b) :=
  emits_fillTextInput h h h h

theorem vf_fillTextarea (env : PageEnv) {sel : String} (v : String)
    (h : sel ∉ visaTargets) : EmitsOnly visaFree (fillTextarea env sel v) :=
  emits_fillTextInput h h h h

theorem vf_selectOption (env : PageEnv) {sel : String} (v : String)
    (h : sel ∉ visaTargets) : EmitsOnly visaFree (selectOption env sel v) :=
  emits_selectOption h h h h

theorem vf_checkCheckbox (env : PageEnv) {sel : String}
    (h : sel ∉ visaTargets) : EmitsOnly visaFree (checkCheckbox env sel) :=
  emits_checkCheckbox h h h

theorem vf_clickRadio (env : PageEnv) {sel : String}
    (h : sel ∉ visaTargets) : EmitsOnly visaFree (clickRadio env sel) :=
  emits_clickRadio h h h

theorem vf_uploadFile (env : PageEnv) {sel : String} (p : String)
    (h : sel ∉ visaTargets) : EmitsOnly visaFree (uploadFile env sel p) :=
  emits_uploadFile h h

theorem vf_fillDateInput (env : PageEnv) {sel : String} (d : String)
    (h : sel ∉ visaTargets) : EmitsOnly visaFree (fillDateInput env sel d) :=
  emits_fillDateInput h h

theorem vf_setSliderValue (env : PageEnv) {sel : String} (v : Int)
    (h : sel ∉ visaTargets) : EmitsOnly visaFree (setSliderValue env sel v) :=
  emits_setSliderValue h h

theorem vf_hoverAndClick (env : PageEnv) {sel : String}
    (h : sel ∉ visaTargets) : EmitsOnly visaFree (hoverAndClick env sel) :=
  emits_hoverAndClick h h

theorem vf_smoothScrollTo (env : PageEnv) {sel : String}
    (h : sel ∉ visaTargets) : EmitsOnly visaFree (smoothScrollTo env sel) :=
  emits_smoothScrollTo h

theorem vf_waitSelectorHard {b : Bool} {sel : String} {t : Nat}
    (h : sel ∉ visaTargets) : EmitsOnly visaFree (waitSelectorHard b sel t) :=
  emits_waitSelectorHard h

theorem vf_waitSelectorSoft {b : Bool} {sel : String} {t : Nat}
    (h : sel ∉ visaTargets) : EmitsOnly visaFree (waitSelectorSoft b sel t) :=
  emits_waitSelectorSoft h

theorem vf_waitFunctionHard {b : Bool} {desc : String} {t : Nat}
    (h : desc ∉ visaTargets) : EmitsOnly visaFree (waitFunctionHard b desc t) :=
  emits_waitFunctionHard h

theorem vf_emitE {ev : Ev} (h : ev.target ∉ visaTargets) :
    EmitsOnly visaFree (emitE ev) := emits_emitE h

/-! Visa-freedom of every Acme step when not work-authorized. -/

theorem vf_fillStep1 (env : PageEnv) (p : UserProfile) :
    EmitsOnly visaFree (AcmeHandler.fillStep1 env p) := by
  unfold AcmeHandler.fillStep1
  refine emits_bind (vf_fillTextInput env _ _ (by decide)) (fun _ => ?_)
  refine emits_bind (vf_fillTextInput env _ _ (by decide)) (fun _ => ?_)
  refine emits_bind (vf_fillTextInput env _ _ (by decide)) (fun _ => ?_)
  refine emits_bind (vf_fillTextInput env _ _ (by decide)) (fun _ => ?_)
  refine emits_bind (vf_fillTextInput env _ _ (by decide)) (fun _ => ?_)
  refine emits_bind ?_ (fun _ => ?_)
  · cases p.linkedIn with
    | none => exact emits_pure ()
    | some s => exact emits_ite (emits_pure ()) (vf_fillTextInput env _ _ (by decide))
  · cases p.portfolio with
    | none => exact emits_pure ()
    | some s => exact emits_ite (emits_pure ()) (vf_fillTextInput env _ _ (by decide))

theorem vf_selectSkillsGo (env : PageEnv) (skills : List String) :
    EmitsOnly visaFree (AcmeHandler.selectSkillsGo env skills) := by
  induction skills with
  | nil => exact emits_pure ()
  | cons skill rest ih =>
    unfold AcmeHandler.selectSkillsGo
    refine emits_bind ?_ (fun _ => ih)
    cases lookupStr AcmeHandler.skillMap (jsTrim (jsToLower skill)) with
    | none => exact emits_pure ()
    | some v => exact vf_checkCheckbox env (skillSel_not_visa v)

theorem vf_fillSchoolTypeahead (env : PageEnv) (s : String) :
    EmitsOnly visaFree (AcmeHandler.fillSchoolTypeahead env s) := by
  unfold AcmeHandler.fillSchoolTypeahead
  refine emits_bind (vf_emitE (by decide)) (fun _ => ?_)
  refine emits_bind (emits_randomDelay env 100 200) (fun _ => ?_)
  refine emits_bind (vf_emitE (by decide)) (fun _ => ?_)
  refine emits_bind (emits_randomDelay env 100 200) (fun _ => ?_)
  refine emits_bind (vf_fillTextInput env _ _ (by decide)) (fun _ => ?_)
  refine emits_bind (vf_waitSelectorSoft (by decide)) (fun _ => ?_)
  refine emits_bind (emits_randomDelay env 300 500) (fun _ => ?_)
  refine emits_bind
    (emits_ite (vf_hoverAndClick env (by decide)) (vf_emitE (by decide)))
    (fun _ => emits_randomDelay env 200 400)

theorem vf_fillStep2 (env : PageEnv) (p : UserProfile) :
    EmitsOnly visaFree (AcmeHandler.fillStep2 env p) := by
  unfold AcmeHandler.fillStep2
  refine emits_bind (vf_uploadFile env _ (by decide)) (fun _ => ?_)
  refine emits_bind (vf_selectOption env _ (by decide)) (fun _ => ?_)
  refine emits_bind (vf_selectOption env _ (by decide)) (fun _ => ?_)
  refine emits_bind (vf_fillSchoolTypeahead env _) (fun _ => ?_)
  exact vf_selectSkillsGo env _

theorem vf_fillStep3 (env : PageEnv) (p : UserProfile)
    (hp : p.workAuthorized = false) :
    EmitsOnly visaFree (AcmeHandler.fillStep3 env p) := by
  unfold AcmeHandler.fillStep3
  refine emits_bind (vf_clickRadio env (workAuthSel_not_visa _)) (fun _ => ?_)
  refine emits_bind ?_ (fun _ => ?_)
  · rw [if_neg (by simp [hp])]
    exact emits_pure ()
  refine emits_bind (vf_fillDateInput env _ (by decide)) (fun _ => ?_)
  refine emits_bind ?_ (fun _ => ?_)
  · cases p.salaryExpectation with
    | none => exact emits_pure ()
    | some s => exact emits_ite (emits_pure ()) (vf_fillTextInput env _ _ (by decide))
  refine emits_bind
    (emits_acme_selectReferralSource (by decide) (by decide) (by decide)
      (fun v => by show "#referral" ∉ visaTargets; decide) (by decide)
      (by decide) (by decide) (by decide)
      (fun t => by show "#referral-other" ∉ visaTargets; decide)) (fun _ => ?_)
  exact vf_fillTextarea env _ (by decide)

theorem vf_clickNext (env : PageEnv) :
    EmitsOnly visaFree (AcmeHandler.clickNext env) := by
  unfold AcmeHandler.clickNext
  refine emits_bind emits_getActiveStep (fun n => ?_)
  refine emits_bind (vf_smoothScrollTo env (by decide)) (fun _ => ?_)
  refine emits_bind (emits_randomDelay env 200 400) (fun _ => ?_)
  refine emits_bind (vf_emitE (by decide)) (fun _ => ?_)
  refine emits_bind (vf_waitSelectorHard (stepSel_not_visa _)) (fun _ => ?_)
  refine emits_bind (emits_setActiveStep _) (fun _ => emits_randomDelay env 300 600)

theorem vf_acme_submitForm (env : PageEnv) :
    EmitsOnly visaFree (AcmeHandler.submitForm env) := by
  unfold AcmeHandler.submitForm
  refine emits_bind (vf_smoothScrollTo env (by decide)) (fun _ => ?_)
  refine emits_bind (emits_randomDelay env 500 1000) (fun _ => ?_)
  refine emits_bind (vf_emitE (by decide)) (fun _ => emits_randomDelay env 1000 2000)

theorem vf_acme_tryBody (env : PageEnv) (p : UserProfile)
    (hp : p.workAuthorized = false) :
    EmitsOnly visaFree (AcmeHandler.tryBody env p) := by
  unfold AcmeHandler.tryBody AcmeHandler.fillFlow
  refine emits_bind ?_ (fun _ => ?_)
  · refine emits_bind (vf_fillStep1 env p) (fun _ => ?_)
    refine emits_bind (vf_clickNext env) (fun _ => ?_)
    refine emits_bind (emits_readingPause env 500 1000) (fun _ => ?_)
    refine emits_bind (vf_fillStep2 env p) (fun _ => ?_)
    refine emits_bind (vf_clickNext env) (fun _ => ?_)
    refine emits_bind (emits_readingPause env 500 1000) (fun _ => ?_)
    refine emits_bind (vf_fillStep3 env p hp) (fun _ => ?_)
    refine emits_bind (vf_clickNext env) (fun _ => ?_)
    refine emits_bind (emits_readingPause env 1000 2000) (fun _ => ?_)
    refine emits_bind (vf_checkCheckbox env (by decide)) (fun _ => ?_)
    exact vf_acme_submitForm env
  · refine emits_bind (vf_waitSelectorHard (by decide)) (fun _ => emits_pure _)

/-! Visa-freedom of every Globex step when not work-authorized. -/

theorem vf_expandSection (env : PageEnv) (name : String) :
    EmitsOnly visaFree (GlobexHandler.expandSection env name) := by
  unfold GlobexHandler.expandSection
  refine emits_bind (vf_smoothScrollTo env (sectionHeaderSel_not_visa name)) (fun _ => ?_)
  refine emits_bind (emits_randomDelay env 200 400) (fun _ => ?_)
  refine emits_ite (emits_pure ()) ?_
  exact emits_bind (vf_hoverAndClick env (sectionHeaderSel_not_visa name))
    (fun _ => emits_randomDelay env 300 500)

theorem vf_fillContactDetails (env : PageEnv) (p : UserProfile) :
    EmitsOnly visaFree (GlobexHandler.fillContactDetails env p) := by
  unfold GlobexHandler.fillContactDetails
  refine emits_bind (vf_fillTextInput env _ _ (by decide)) (fun _ => ?_)
  refine emits_bind (vf_fillTextInput env _ _ (by decide)) (fun _ => ?_)
  refine emits_bind (vf_fillTextInput env _ _ (by decide)) (fun _ => ?_)
  refine emits_bind (vf_fillTextInput env _ _ (by decide)) (fun _ => ?_)
  refine emits_bind (vf_fillTextInput env _ _ (by decide)) (fun _ => ?_)
  refine emits_bind ?_ (fun _ => ?_)
  · cases p.linkedIn with
    | none => exact emits_pure ()
    | some s => exact emits_ite (emits_pure ()) (vf_fillTextInput env _ _ (by decide))
  · cases p.portfolio with
    | none => exact emits_pure ()
    | some s => exact emits_ite (emits_pure ()) (vf_fillTextInput env _ _ (by decide))

theorem vf_fillAsyncTypeahead (env : PageEnv) (s : String) :
    EmitsOnly visaFree (GlobexHandler.fillAsyncTypeahead env s) := by
  unfold GlobexHandler.fillAsyncTypeahead
  refine emits_bind (vf_emitE (by decide)) (fun _ => ?_)
  refine emits_bind (emits_randomDelay env 100 200) (fun _ => ?_)
  refine emits_bind (vf_emitE (by decide)) (fun _ => ?_)
  refine emits_bind (emits_randomDelay env 100 200) (fun _ => ?_)
  refine emits_bind (vf_fillTextInput env _ _ (by decide)) (fun _ => ?_)
  refine emits_bind (vf_waitSelectorSoft (by decide)) (fun _ => ?_)
  refine emits_bind (vf_waitFunctionHard (by decide)) (fun _ => ?_)
  refine emits_bind (emits_randomDelay env 200 400) (fun _ => ?_)
  refine emits_bind ?_ (fun _ => emits_randomDelay env 200 400)
  cases GlobexHandler.typeaheadMatchIdx env.schoolResultTexts s with
  | some i => exact vf_hoverAndClick env (resultItemSel_not_visa i)
  | none =>
    exact emits_ite (vf_hoverAndClick env (resultItemSel_not_visa 0)) (emits_pure ())

theorem vf_selectSkillChipsGo (env : PageEnv) (skills : List String) :
    EmitsOnly visaFree (GlobexHandler.selectSkillChipsGo env skills) := by
  induction skills with
  | nil => exact emits_pure ()
  | cons skill rest ih =>
    unfold GlobexHandler.selectSkillChipsGo
    refine emits_bind ?_ (fun _ => ih)
    cases lookupStr GlobexHandler.chipMap (jsTrim (jsToLower skill)) with
    | none => exact emits_pure ()
    | some v =>
      refine emits_bind (vf_emitE (chipSel_not_visa v)) (fun _ => ?_)
      refine emits_bind (emits_randomDelay env 100 200) (fun _ => ?_)
      exact emits_ite (emits_pure ()) (vf_hoverAndClick env (chipSel_not_visa v))

theorem vf_fillQualifications (env : PageEnv) (p : UserProfile) :
    EmitsOnly visaFree (GlobexHandler.fillQualifications env p) := by
  unfold GlobexHandler.fillQualifications
  refine emits_bind (vf_uploadFile env _ (by decide)) (fun _ => ?_)
  refine emits_bind (vf_selectOption env _ (by decide)) (fun _ => ?_)
  refine emits_bind (vf_selectOption env _ (by decide)) (fun _ => ?_)
  refine emits_bind (vf_fillAsyncTypeahead env _) (fun _ => ?_)
  exact vf_selectSkillChipsGo env _

theorem vf_fillAdditionalInfo (env : PageEnv) (p : UserProfile)
    (hp : p.workAuthorized = false) :
    EmitsOnly visaFree (GlobexHandler.fillAdditionalInfo env p) := by
  unfold GlobexHandler.fillAdditionalInfo
  refine emits_bind (vf_smoothScrollTo env (by decide)) (fun _ => ?_)
  refine emits_bind (emits_randomDelay env 100 200) (fun _ => ?_)
  refine emits_bind ?_ (fun _ => ?_)
  · refine emits_ite ?_ (emits_pure ())
    exact emits_bind (vf_hoverAndClick env (by decide))
      (fun _ => emits_randomDelay env 300 500)
  refine emits_bind ?_ (fun _ => ?_)
  · rw [if_neg (by simp [hp])]
    exact emits_pure ()
  refine emits_bind (vf_fillDateInput env _ (by decide)) (fun _ => ?_)
  refine emits_bind ?_ (fun _ => ?_)
  · cases p.salaryExpectation with
    | none => exact emits_pure ()
    | some s =>
      refine emits_ite (emits_pure ()) ?_
      cases jsParseInt s with
      | none => exact emits_pure ()
      | some v => exact vf_setSliderValue env _ (by decide)
  refine emits_bind
    (emits_globex_selectReferralSource (by decide) (by decide) (by decide)
      (fun v => by show "#g-source" ∉ visaTargets; decide) (by decide)
      (by decide) (by decide) (by decide)
      (fun t => by show "#g-source-other" ∉ visaTargets; decide)) (fun _ => ?_)
  exact vf_fillTextarea env _ (by decide)

theorem vf_globex_submitForm (env : PageEnv) :
    EmitsOnly visaFree (GlobexHandler.submitForm env) := by
  unfold GlobexHandler.submitForm
  refine emits_bind (vf_smoothScrollTo env (by decide)) (fun _ => ?_)
  refine emits_bind (emits_randomDelay env 200 400) (fun _ => ?_)
  refine emits_bind (vf_emitE (by decide)) (fun _ => ?_)
  refine emits_bind (emits_randomDelay env 200 400) (fun _ => ?_)
  refine emits_bind (vf_smoothScrollTo env (by decide)) (fun _ => ?_)
  refine emits_bind (emits_randomDelay env 500 1000) (fun _ => ?_)
  refine emits_bind (vf_hoverAndClick env (by decide))
    (fun _ => emits_randomDelay env 1000 2000)

theorem vf_globex_tryBody (env : PageEnv) (p : UserProfile)
    (hp : p.workAuthorized = false) :
    EmitsOnly visaFree (GlobexHandler.tryBody env p) := by
  unfold GlobexHandler.tryBody GlobexHandler.fillFlow
  refine emits_bind ?_ (fun _ => ?_)
  · refine emits_bind (vf_expandSection env _) (fun _ => ?_)
    refine emits_bind (vf_fillContactDetails env p) (fun _ => ?_)
    refine emits_bind (emits_readingPause env 300 600) (fun _ => ?_)
    refine emits_bind (vf_expandSection env _) (fun _ => ?_)
    refine emits_bind (vf_fillQualifications env p) (fun _ => ?_)
    refine emits_bind (emits_readingPause env 300 600) (fun _ => ?_)
    refine emits_bind (vf_expandSection env _) (fun _ => ?_)
    refine emits_bind (vf_fillAdditionalInfo env p hp) (fun _ => ?_)
    refine emits_bind (emits_readingPause env 500 1000) (fun _ => ?_)
    exact vf_globex_submitForm env
  · refine emits_bind (vf_waitSelectorHard (by decide)) (fun _ => emits_pure _)

/-- The catch wrapper returns the body's final world unchanged. -/
theorem acme_fillAndSubmit_world (env : PageEnv) (p : UserProfile) (w : World) :
    (AcmeHandler.fillAndSubmit env p w).2 = (AcmeHandler.tryBody env p w).world := by
  unfold AcmeHandler.fillAndSubmit
  cases AcmeHandler.tryBody env p w <;> rfl

theorem globex_fillAndSubmit_world (env : PageEnv) (p : UserProfile) (w : World) :
    (GlobexHandler.fillAndSubmit env p w).2 = (GlobexHandler.tryBody env p w).world := by
  unfold GlobexHandler.fillAndSubmit
  cases GlobexHandler.tryBody env p w <;> rfl

/-- C6: for every profile with `workAuthorized = false` and every page
state, no event of either handler's whole fill-and-submit run touches the
visa-sponsorship field or its governing container — neither an
interaction (click/radio/toggle) nor a selector wait. -/
theorem visa_never_touched_when_not_authorized (env : PageEnv)
    (p : UserProfile) (w : World) (e : Ev) (hp : p.workAuthorized = false) :
    (e ∈ (AcmeHandler.fillAndSubmit env p w).2.trace →
      e ∈ w.trace ∨ visaFree e) ∧
    (e ∈ (GlobexHandler.fillAndSubmit env p w).2.trace →
      e ∈ w.trace ∨ visaFree e) := by
  constructor <;> intro he
  · rw [acme_fillAndSubmit_world] at he
    exact vf_acme_tryBody env p hp w e he
  · rw [globex_fillAndSubmit_world] at he
    exact vf_globex_tryBody env p hp w e he

/-- Witness for C6 at a concrete not-work-authorized run. -/
theorem visa_never_touched_when_not_authorized_witness :
    Fixtures.profNoAuth.workAuthorized = false ∧
    Ev.scroll "#first-name" ∈
      (AcmeHandler.fillAndSubmit Fixtures.envTrue Fixtures.profNoAuth Fixtures.w0).2.trace ∧
    (Ev.scroll "#first-name" ∈ Fixtures.w0.trace ∨ visaFree (Ev.scroll "#first-name")) ∧
    Ev.scroll "#g-fname" ∈
      (GlobexHandler.fillAndSubmit Fixtures.envTrue Fixtures.profNoAuth Fixtures.w0).2.trace ∧
    (Ev.scroll "#g-fname" ∈ Fixtures.w0.trace ∨ visaFree (Ev.scroll "#g-fname")) := by
  refine ⟨rfl, by decide, ?_, by decide, ?_⟩
  · exact (visa_never_touched_when_not_authorized Fixtures.envTrue
      Fixtures.profNoAuth Fixtures.w0 (Ev.scroll "#first-name") rfl).1 (by decide)
  · exact (visa_never_touched_when_not_authorized Fixtures.envTrue
      Fixtures.profNoAuth Fixtures.w0 (Ev.scroll "#g-fname") rfl).2 (by decide)
